import Mathlib

/-!
Verification of the QueryForge core pipeline (src/core of the repository):
a shallow embedding of `safety.py`, `prompting.py`, the relevant constants of
`config.py`, and the orchestration of `generator.py`, followed by theorems
settling the frozen claims about them.

Strings are modelled by Lean `String` (a packed `List Char`); Python string
primitives (`str.strip`, `str.upper`, `str.lower`, `str.split`, slicing) are
embedded as executable functions over `List Char`, restricted to the ASCII
behaviour that the queries, keywords and messages in scope exercise.  Python
regular-expression searches used by the source are embedded pattern by
pattern as executable scanners with the same acceptance condition.
`json.loads` (used by `_validate_mongodb_query` only for its succeed/raise
outcome) is embedded as `jsonAccepts`, a fuel-driven acceptor of CPython's
JSON grammar (RFC 8259 plus the NaN, Infinity and -Infinity extensions).
-/

/-! ## Character classes and Python string primitives -/

/-- Whitespace as Python `str.strip`, `str.split` and regex `\s` treat ASCII:
space, tab, newline, carriage return, vertical tab, form feed. -/
def isPyWs (c : Char) : Bool :=
  c == ' ' || c == '\t' || c == '\n' || c == '\r' || c == Char.ofNat 11 || c == Char.ofNat 12

/-- Word characters of the regex class `\w` (ASCII): letters, digits, underscore. -/
def isWordChar (c : Char) : Bool :=
  c.isAlpha || c.isDigit || c == '_'

/-- Characters removed by `sanitize_input`: the regex class
`[\x00-\x08\x0b\x0c\x0e-\x1f\x7f]` of `src/core/safety.py`. -/
def isCtlChar (c : Char) : Bool :=
  c.toNat ≤ 8 || c.toNat == 11 || c.toNat == 12 ||
    (14 ≤ c.toNat && c.toNat ≤ 31) || c.toNat == 127

/-- The backtick character (0x60), kept out of the source text of this file. -/
def btick : Char := Char.ofNat 96

/-- The double-quote character. -/
def cQuote : Char := Char.ofNat 34

/-- The backslash character. -/
def cBackslash : Char := Char.ofNat 92

/-- The opening-brace character. -/
def cLBrace : Char := Char.ofNat 123

/-- The closing-brace character. -/
def cRBrace : Char := Char.ofNat 125

/-- The apostrophe character, used to spell the narrative prefixes. -/
def cApos : Char := Char.ofNat 39

/-- Python `str.upper` on ASCII text (`Char.toUpper` maps only a-z). -/
def pyUpperL (s : List Char) : List Char := s.map Char.toUpper

/-- Python `str.lower` on ASCII text. -/
def pyLowerL (s : List Char) : List Char := s.map Char.toLower

/-- Trailing-whitespace removal, the right half of Python `str.strip`. -/
def dropTrailingWs : List Char → List Char
  | [] => []
  | c :: rest =>
    match dropTrailingWs rest with
    | [] => if isPyWs c then [] else [c]
    | r => c :: r

/-- Python `str.strip` on ASCII text. -/
def pyStripL (s : List Char) : List Char := dropTrailingWs (s.dropWhile isPyWs)

/-- String wrapper for `pyStripL`. -/
def pyStrip (s : String) : String := String.mk (pyStripL s.data)

/-- String wrapper for `pyUpperL`. -/
def pyUpper (s : String) : String := String.mk (pyUpperL s.data)

/-- String wrapper for `pyLowerL`. -/
def pyLower (s : String) : String := String.mk (pyLowerL s.data)

/-- Python `str.split()` with no separator: split on whitespace runs,
dropping empty pieces.  `acc` carries the current word reversed. -/
def pySplitGo : List Char → List Char → List (List Char)
  | [], acc => if acc.isEmpty then [] else [acc.reverse]
  | c :: rest, acc =>
    if isPyWs c then
      if acc.isEmpty then pySplitGo rest [] else acc.reverse :: pySplitGo rest []
    else pySplitGo rest (c :: acc)

/-- Python `text.split()`. -/
def pySplitL (s : List Char) : List (List Char) := pySplitGo s []

/-! ## Substring and pattern scanners (the regex searches of the source) -/

/-- Literal substring occurrence: `sub in s` of Python. -/
def containsSub : List Char → List Char → Bool
  | s, sub =>
    sub.isPrefixOf s ||
      match s with
      | [] => false
      | _ :: t => containsSub t sub

/-- String wrapper: Python `sub in s` (case sensitive). -/
def containsSubStr (s sub : String) : Bool := containsSub s.data sub.data

/-- Case-insensitive substring occurrence, as `re.search` of an escaped
literal with `re.IGNORECASE`. -/
def containsSubCI (s sub : String) : Bool :=
  containsSub (pyUpperL s.data) (pyUpperL sub.data)

/-- Generic position scanner: does `f` accept at some suffix of `s`
(including the empty final suffix)?  This is `re.search` for a pattern whose
acceptance at one position `f` decides. -/
def scanSuffixes (f : List Char → Bool) : List Char → Bool
  | [] => f []
  | c :: rest => f (c :: rest) || scanSuffixes f rest

/-- Case-insensitive literal prefix: consume `pat` (compared through
`Char.toUpper`) off the head of `s`, returning the rest. -/
def stripPrefixCIL : List Char → List Char → Option (List Char)
  | [], s => some s
  | _ :: _, [] => none
  | p :: ps, c :: cs =>
    if Char.toUpper c == Char.toUpper p then stripPrefixCIL ps cs else none

/-- Regex `\s+`: require at least one whitespace character, skip the run. -/
def skipWs1 : List Char → Option (List Char)
  | [] => none
  | c :: rest => if isPyWs c then some (rest.dropWhile isPyWs) else none

/-- Word-boundary keyword match at the head position: `prev` is the
character before the position (none at the start of the text).  The keywords
scanned all begin and end with word characters, for which regex
`\b kw \b` demands a non-word (or absent) character on both sides. -/
def boundedAt (prev : Option Char) (s kw : List Char) : Bool :=
  (match prev with | none => true | some c => !isWordChar c) &&
  kw.isPrefixOf s &&
  (match s.drop kw.length with | [] => true | c :: _ => !isWordChar c)

/-- Scan all positions of `s` for a word-boundary occurrence of `kw`:
`re.search(r"\b" + re.escape(kw) + r"\b", s)`. -/
def wordScan (kw : List Char) : Option Char → List Char → Bool
  | prev, [] => boundedAt prev [] kw
  | prev, c :: rest => boundedAt prev (c :: rest) kw || wordScan kw (some c) rest

/-- Keyword occurrence in the uppercased query, as `_validate_sql_query`
matches: `re.search(r"\b" + re.escape(keyword) + r"\b", query_upper)`. -/
def sqlKeywordHit (queryUpper kw : String) : Bool :=
  wordScan kw.data none queryUpper.data

/-- Regex `;\s*(DROP|DELETE|INSERT|UPDATE)` with `re.IGNORECASE`:
acceptance at one position. -/
def semiDestructiveAt (s : List Char) : Bool :=
  match s with
  | [] => false
  | c :: rest =>
    c == ';' &&
      (let t := rest.dropWhile isPyWs
       ["DROP", "DELETE", "INSERT", "UPDATE"].any fun w => (stripPrefixCIL w.data t).isSome)

/-- Search for the `;\s*(DROP|DELETE|INSERT|UPDATE)` injection pattern. -/
def semiDestructiveHit (q : String) : Bool := scanSuffixes semiDestructiveAt q.data

/-- Regex `UNION\s+ALL\s+SELECT` with `re.IGNORECASE`: acceptance at one
position. -/
def unionAllSelectAt (s : List Char) : Bool :=
  (((stripPrefixCIL "UNION".data s).bind skipWs1).bind fun r =>
    ((stripPrefixCIL "ALL".data r).bind skipWs1).bind fun r2 =>
      stripPrefixCIL "SELECT".data r2).isSome

/-- Search for the `UNION\s+ALL\s+SELECT` injection pattern. -/
def unionAllSelectHit (q : String) : Bool := scanSuffixes unionAllSelectAt q.data

/-- Regex `--\s*\w+`: two hyphens, optional whitespace, then at least one
word character.  Acceptance at one position. -/
def lineCommentAt (s : List Char) : Bool :=
  match s with
  | '-' :: '-' :: rest =>
    (match rest.dropWhile isPyWs with
     | c :: _ => isWordChar c
     | [] => false)
  | _ => false

/-- Search for the `--\s*\w+` injection pattern. -/
def lineCommentHit (q : String) : Bool := scanSuffixes lineCommentAt q.data

/-- Regex `/\*.*?\*/` with `re.DOTALL`: an opening `/*` with a closing `*/`
somewhere after it. -/
def blockCommentAt (s : List Char) : Bool :=
  match s with
  | '/' :: '*' :: rest => scanSuffixes (fun t => ['*', '/'].isPrefixOf t) rest
  | _ => false

/-- Search for the block-comment injection pattern. -/
def blockCommentHit (q : String) : Bool := scanSuffixes blockCommentAt q.data

/-- Regex `name\s*\(` with `re.IGNORECASE` (the `eval(`/`exec(`/`system(`
call forms): acceptance at one position. -/
def parenCallAt (name : String) (s : List Char) : Bool :=
  match stripPrefixCIL name.data s with
  | some r =>
    (match r.dropWhile isPyWs with
     | c :: _ => c == '('
     | [] => false)
  | none => false

/-- Search for a `name\s*\(` call form. -/
def parenCallHit (name : String) (q : String) : Bool :=
  scanSuffixes (parenCallAt name) q.data

/-- Regex `import\s+os` with `re.IGNORECASE`: acceptance at one position. -/
def importOsAt (s : List Char) : Bool :=
  (((stripPrefixCIL "import".data s).bind skipWs1).bind fun r =>
    stripPrefixCIL "os".data r).isSome

/-- Search for the `import\s+os` pattern. -/
def importOsHit (q : String) : Bool := scanSuffixes importOsAt q.data

/-- Regex `INTO\s+OUTFILE` with `re.IGNORECASE`: acceptance at one position. -/
def intoOutfileAt (s : List Char) : Bool :=
  (((stripPrefixCIL "INTO".data s).bind skipWs1).bind fun r =>
    stripPrefixCIL "OUTFILE".data r).isSome

/-- Search for the `INTO\s+OUTFILE` pattern. -/
def intoOutfileHit (q : String) : Bool := scanSuffixes intoOutfileAt q.data

/-- Regex `LOAD\s+DATA` with `re.IGNORECASE`: acceptance at one position. -/
def loadDataAt (s : List Char) : Bool :=
  (((stripPrefixCIL "LOAD".data s).bind skipWs1).bind fun r =>
    stripPrefixCIL "DATA".data r).isSome

/-- Search for the `LOAD\s+DATA` pattern. -/
def loadDataHit (q : String) : Bool := scanSuffixes loadDataAt q.data

/-- Regex `INTO\s+DUMPFILE` tail of the dumpfile pattern: acceptance at one
position. -/
def dumpTailAt (s : List Char) : Bool :=
  (((stripPrefixCIL "INTO".data s).bind skipWs1).bind fun r =>
    stripPrefixCIL "DUMPFILE".data r).isSome

/-- Splittability of the region between `SELECT` and `INTO` of the dumpfile
pattern as `\s+` then `.*` (no newline, `re.DOTALL` is not set here) then
`\s+`: the region must be at least two characters, start and end with
whitespace, and hold newlines only inside its leading and trailing
whitespace runs. -/
def wsSandwich (u : List Char) : Bool :=
  decide (2 ≤ u.length) &&
  (match u.head? with | some c => isPyWs c | none => false) &&
  (match u.getLast? with | some c => isPyWs c | none => false) &&
  !((pyStripL u).contains '\n')

/-- Regex `SELECT\s+.*\s+INTO\s+DUMPFILE` with `re.IGNORECASE`: acceptance
at one position. -/
def dumpfileAt (s : List Char) : Bool :=
  match stripPrefixCIL "SELECT".data s with
  | some t =>
    (List.range (t.length + 1)).any fun m =>
      wsSandwich (t.take m) && dumpTailAt (t.drop m)
  | none => false

/-- Search for the `SELECT\s+.*\s+INTO\s+DUMPFILE` pattern. -/
def dumpfileHit (q : String) : Bool := scanSuffixes dumpfileAt q.data

/-! ## The two `re.sub` passes of `clean_query_response` -/

/-- Leftmost-first deletion of matches: `re.sub(pattern, "", s)` for a
pattern whose match at the head position `f` decides, returning the rest of
the text after the match.  Matches of the patterns in use consume at least
three characters, so fuel equal to the length of the text suffices; on
exhausted fuel the rest of the text is returned unchanged. -/
def reSubDelAux (f : List Char → Option (List Char)) : Nat → List Char → List Char
  | 0, s => s
  | _ + 1, [] => []
  | n + 1, c :: rest =>
    match f (c :: rest) with
    | some r => reSubDelAux f n r
    | none => c :: reSubDelAux f n rest

/-- Head match of the fenced-code pattern of `clean_query_response`: three
backticks, then `(?:sql|json|mongodb)?\n?` (an optional case-insensitive
language tag tried in the alternation order of the source, then an optional
newline), returning the rest after the match. -/
def fenceMatchRest (s : List Char) : Option (List Char) :=
  if ("```".data).isPrefixOf s then
    let r := s.drop 3
    let afterLang :=
      match stripPrefixCIL "sql".data r with
      | some r1 => r1
      | none =>
        match stripPrefixCIL "json".data r with
        | some r1 => r1
        | none =>
          match stripPrefixCIL "mongodb".data r with
          | some r1 => r1
          | none => r
    match afterLang with
    | c :: rest2 => if c == '\n' then some rest2 else some afterLang
    | [] => some []
  else none

/-- Head match of the bare fence pattern (three backticks). -/
def tripleMatchRest (s : List Char) : Option (List Char) :=
  if ("```".data).isPrefixOf s then some (s.drop 3) else none

/-- First cleaning pass of `clean_query_response`: `re.sub` of the
fenced-code pattern (with `re.IGNORECASE`) by the empty string. -/
def subFenceStr (s : String) : String :=
  String.mk (reSubDelAux fenceMatchRest s.data.length s.data)

/-- Second cleaning pass of `clean_query_response`: `re.sub` of a bare
three-backtick fence by the empty string. -/
def subTripleStr (s : String) : String :=
  String.mk (reSubDelAux tripleMatchRest s.data.length s.data)

/-- Length of the run of backticks at the head of the text. -/
def leadTicks : List Char → Nat
  | [] => 0
  | c :: rest => if c == btick then leadTicks rest + 1 else 0

/-! ## A fuel-driven acceptor for CPython `json.loads`

`_validate_mongodb_query` consumes only the succeed-or-raise outcome of
`json.loads(query)`, so the embedding needs an acceptor, not a parser.
The grammar is RFC 8259 with CPython's strict-mode extensions: the extra
constants `NaN`, `Infinity` and `-Infinity`, string escapes limited to
`" \ / b f n r t uXXXX`, unescaped control characters below 0x20 refused,
keys limited to strings, and whitespace limited to space, tab, newline and
carriage return. -/

/-- JSON whitespace. -/
def isJsonWs (c : Char) : Bool :=
  c == ' ' || c == '\t' || c == '\n' || c == '\r'

/-- Hexadecimal digit. -/
def isHexDigitA (c : Char) : Bool :=
  c.isDigit || (97 ≤ c.toNat && c.toNat ≤ 102) || (65 ≤ c.toNat && c.toNat ≤ 70)

/-- Rest of a JSON string after its opening quote. -/
def jString : Nat → List Char → Option (List Char)
  | 0, _ => none
  | _ + 1, [] => none
  | n + 1, c :: rest =>
    if c == cQuote then some rest
    else if c == cBackslash then
      match rest with
      | [] => none
      | e :: rest2 =>
        if e == 'u' then
          match rest2 with
          | h1 :: h2 :: h3 :: h4 :: rest3 =>
            if isHexDigitA h1 && isHexDigitA h2 && isHexDigitA h3 && isHexDigitA h4 then
              jString n rest3
            else none
          | _ => none
        else if [cQuote, cBackslash, '/', 'b', 'f', 'n', 'r', 't'].contains e then
          jString n rest2
        else none
    else if c.toNat < 32 then none
    else jString n rest

/-- Exponent part of a JSON number (optional). -/
def jExp (t : List Char) : Option (List Char) :=
  match t with
  | c :: r =>
    if c == 'e' || c == 'E' then
      let r2 := match r with
        | d :: r1 => if d == '+' || d == '-' then r1 else r
        | [] => r
      match r2 with
      | d :: _ => if d.isDigit then some (r2.dropWhile Char.isDigit) else none
      | [] => none
    else some t
  | [] => some t

/-- Fraction then exponent part of a JSON number (both optional). -/
def jFrac (t : List Char) : Option (List Char) :=
  match t with
  | c :: r =>
    if c == '.' then
      match r with
      | d :: _ => if d.isDigit then jExp (r.dropWhile Char.isDigit) else none
      | [] => none
    else jExp t
  | [] => jExp t

/-- A JSON number: `-?(0|[1-9][0-9]*)(\.[0-9]+)?([eE][+-]?[0-9]+)?`. -/
def jNumber (t : List Char) : Option (List Char) :=
  let t1 := match t with
    | c :: r => if c == '-' then r else t
    | [] => t
  match t1 with
  | [] => none
  | c :: r =>
    if c == '0' then jFrac r
    else if c.isDigit then jFrac (r.dropWhile Char.isDigit)
    else none

mutual

/-- A JSON value, leading whitespace allowed; returns the rest after it. -/
def jValue : Nat → List Char → Option (List Char)
  | 0, _ => none
  | n + 1, s =>
    let t := s.dropWhile isJsonWs
    match t with
    | [] => none
    | c :: rest =>
      if c == cQuote then jString (n + 1) rest
      else if c == cLBrace then jMembers n rest
      else if c == '[' then jElems n rest
      else if ("true".data).isPrefixOf t then some (t.drop 4)
      else if ("false".data).isPrefixOf t then some (t.drop 5)
      else if ("null".data).isPrefixOf t then some (t.drop 4)
      else if ("NaN".data).isPrefixOf t then some (t.drop 3)
      else if ("Infinity".data).isPrefixOf t then some (t.drop 8)
      else if ("-Infinity".data).isPrefixOf t then some (t.drop 9)
      else jNumber t
termination_by structural n _ => n

/-- Object members after the opening brace; returns the rest after the
closing brace. -/
def jMembers : Nat → List Char → Option (List Char)
  | 0, _ => none
  | n + 1, s =>
    let t := s.dropWhile isJsonWs
    match t with
    | [] => none
    | c :: rest =>
      if c == cRBrace then some rest
      else if c == cQuote then
        match jString n rest with
        | none => none
        | some afterKey =>
          match (afterKey.dropWhile isJsonWs) with
          | ':' :: afterColon =>
            match jValue n afterColon with
            | none => none
            | some afterVal => jMembersNext n afterVal
          | _ => none
      else none
termination_by structural n _ => n

/-- After one object member: a comma and another member, or the closing
brace. -/
def jMembersNext : Nat → List Char → Option (List Char)
  | 0, _ => none
  | n + 1, s =>
    match s.dropWhile isJsonWs with
    | [] => none
    | c :: rest =>
      if c == cRBrace then some rest
      else if c == ',' then
        match (rest.dropWhile isJsonWs) with
        | d :: rest2 =>
          if d == cQuote then
            match jString n rest2 with
            | none => none
            | some afterKey =>
              match (afterKey.dropWhile isJsonWs) with
              | ':' :: afterColon =>
                match jValue n afterColon with
                | none => none
                | some afterVal => jMembersNext n afterVal
              | _ => none
          else none
        | [] => none
      else none
termination_by structural n _ => n

/-- Array elements after the opening bracket; returns the rest after the
closing bracket. -/
def jElems : Nat → List Char → Option (List Char)
  | 0, _ => none
  | n + 1, s =>
    match s.dropWhile isJsonWs with
    | [] => none
    | c :: rest =>
      if c == ']' then some rest
      else
        match jValue n s with
        | none => none
        | some afterVal => jElemsNext n afterVal
termination_by structural n _ => n

/-- After one array element: a comma and another element, or the closing
bracket. -/
def jElemsNext : Nat → List Char → Option (List Char)
  | 0, _ => none
  | n + 1, s =>
    match s.dropWhile isJsonWs with
    | [] => none
    | c :: rest =>
      if c == ']' then some rest
      else if c == ',' then
        match jValue n rest with
        | none => none
        | some afterVal => jElemsNext n afterVal
      else none
termination_by structural n _ => n

end

/-- Does CPython `json.loads` accept the text (return instead of raising
`json.JSONDecodeError`)?  Trailing whitespace is allowed, any other
trailing text is Extra data and refused. -/
def jsonAccepts (q : String) : Bool :=
  match jValue (2 * q.data.length + 2) q.data with
  | some rest => (rest.dropWhile isJsonWs).isEmpty
  | none => false

/-! ## `src/core/safety.py` -/

/-- `UNSAFE_SQL_KEYWORDS` of `src/core/safety.py`. -/
def UNSAFE_SQL_KEYWORDS : List String :=
  ["CREATE", "ALTER", "DROP", "TRUNCATE",
   "INSERT", "UPDATE", "DELETE", "MERGE", "UPSERT",
   "GRANT", "REVOKE",
   "COMMIT", "ROLLBACK", "SAVEPOINT",
   "EXEC", "EXECUTE", "CALL", "PROCEDURE", "FUNCTION",
   "INDEX", "TRIGGER", "VIEW", "SCHEMA", "DATABASE",
   "USER", "ROLE", "LOGIN", "PASSWORD",
   "SLEEP", "WAITFOR", "BENCHMARK", "LOAD_FILE", "INTO OUTFILE"]

/-- `UNSAFE_MONGO_OPERATIONS` of `src/core/safety.py`. -/
def UNSAFE_MONGO_OPERATIONS : List String :=
  ["$out", "$merge", "$addFields", "$set", "$unset",
   "$replaceRoot", "$replaceWith", "insertOne", "insertMany",
   "updateOne", "updateMany", "deleteOne", "deleteMany",
   "replaceOne", "findOneAndUpdate", "findOneAndDelete",
   "findOneAndReplace", "bulkWrite", "createIndex", "dropIndex"]

/-- `sanitize_input` of `src/core/safety.py`: empty in, empty out; remove
control characters; truncate to 2000 characters; collapse whitespace runs
to single spaces; strip. -/
def sanitize_input (text : String) : String :=
  if text.data.isEmpty then ""
  else
    let t1 := text.data.filter fun c => !isCtlChar c
    let t2 := if 2000 < t1.length then t1.take 2000 else t1
    let t3 := List.intercalate [' '] (pySplitL t2)
    String.mk (pyStripL t3)

/-- The narrative prefix "Here's the SQL query:" (apostrophe built
explicitly, see `cApos`). -/
def PREFIX_HERES_SQL : String :=
  String.mk ("Here".data ++ [cApos] ++ "s the SQL query:".data)

/-- The narrative prefix "Here's the query:". -/
def PREFIX_HERES_QUERY : String :=
  String.mk ("Here".data ++ [cApos] ++ "s the query:".data)

/-- `prefixes_to_remove` of `clean_query_response`, in source order. -/
def prefixes_to_remove : List String :=
  [PREFIX_HERES_SQL, PREFIX_HERES_QUERY,
   "The query is:", "Query:", "SQL:", "MongoDB:"]

/-- Case-insensitive `startswith`: `response.lower().startswith(prefix.lower())`. -/
def prefixMatches (response pre : String) : Bool :=
  (pyLowerL pre.data).isPrefixOf (pyLowerL response.data)

/-- One iteration of the prefix-removal loop of `clean_query_response`:
when the current text starts with the prefix (case-insensitively), drop
`len(prefix)` characters and strip. -/
def stripPrefixStep (response pre : String) : String :=
  if prefixMatches response pre then String.mk (pyStripL (response.data.drop pre.data.length))
  else response

/-- `clean_query_response` of `src/core/safety.py`: empty in, empty out;
delete fenced-code markers (first pass with optional language tag and
newline, second pass bare fences); strip; then run the prefix-removal loop
over `prefixes_to_remove` in order. -/
def clean_query_response (response : String) : String :=
  if response.data.isEmpty then ""
  else
    let r1 := subFenceStr response
    let r2 := subTripleStr r1
    let r3 := String.mk (pyStripL r2.data)
    prefixes_to_remove.foldl stripPrefixStep r3

/-- `_validate_sql_query` of `src/core/safety.py`: the strict-mode
SELECT/WITH gate, the keyword denylist scan over the uppercased query, and
the four injection-shaped patterns, appended in source order. -/
def validate_sql_query (query : String) (strict : Bool) : List String :=
  let query_upper := pyUpper query
  let strictV :=
    if strict then
      let trimmed_query := pyUpper (pyStrip query)
      if !(("SELECT".data).isPrefixOf trimmed_query.data) &&
         !(("WITH".data).isPrefixOf trimmed_query.data) then
        ["Only SELECT statements allowed in strict mode"]
      else []
    else []
  let kwV := UNSAFE_SQL_KEYWORDS.filterMap fun kw =>
    if sqlKeywordHit query_upper kw then some ("Unsafe SQL keyword detected: " ++ kw)
    else none
  let injV := [semiDestructiveHit query, unionAllSelectHit query,
               lineCommentHit query, blockCommentHit query].filterMap fun hit =>
    if hit then some "Potential SQL injection pattern detected" else none
  strictV ++ kwV ++ injV

/-- Is the query JSON-shaped for `_validate_mongodb_query`:
`query.strip().startswith('[') or query.strip().startswith('{')`. -/
def mongoJsonShaped (query : String) : Bool :=
  ("[".data).isPrefixOf (pyStrip query).data ||
    (String.mk [cLBrace]).data.isPrefixOf (pyStrip query).data

/-- The write-operation method names scanned (uppercased) by
`_validate_mongodb_query` on non-JSON-shaped queries. -/
def MONGO_WRITE_METHOD_NAMES : List String :=
  ["INSERTONE", "INSERTMANY", "UPDATEONE", "UPDATEMANY", "DELETEONE", "DELETEMANY"]

/-- The per-operator denylist scan of `_validate_mongodb_query`: one
violation per `UNSAFE_MONGO_OPERATIONS` entry occurring in the raw query as
a literal (case-sensitive) substring. -/
def mongoOperatorScan (query : String) : List String :=
  UNSAFE_MONGO_OPERATIONS.filterMap fun op =>
    if containsSubStr query op then some ("Unsafe MongoDB operation detected: " ++ op)
    else none

/-- `_validate_mongodb_query` of `src/core/safety.py`.  The `try` block
parses JSON-shaped queries with `json.loads` and runs the write-operation
scan on the others; the per-operator scan stands after the parse inside the
`try`, so a raised `json.JSONDecodeError` skips it and the `except` arm
yields the single invalid-format violation.  The `strict` parameter is
accepted and never read, as in the source. -/
def validate_mongodb_query (query : String) (strict : Bool) : List String :=
  if mongoJsonShaped query then
    if jsonAccepts query then mongoOperatorScan query
    else ["Invalid MongoDB query format"]
  else
    (if MONGO_WRITE_METHOD_NAMES.any (fun op => containsSubStr (pyUpper query) op) then
      ["MongoDB write operations not allowed in strict mode"]
     else []) ++ mongoOperatorScan query

/-- `_validate_generic_safety` of `src/core/safety.py`: system-command
indicators then file-operation indicators, one violation per matching
pattern, in source order. -/
def validate_generic_safety (query : String) : List String :=
  let sysV := [containsSubCI query "xp_cmdshell",
               containsSubCI query "sp_executesql",
               parenCallHit "eval" query,
               parenCallHit "exec" query,
               parenCallHit "system" query,
               containsSubCI query "os.",
               importOsHit query,
               containsSubCI query "subprocess"].filterMap fun hit =>
    if hit then some "System command detected" else none
  let fileV := [containsSubCI query "LOAD_FILE",
                intoOutfileHit query,
                loadDataHit query,
                dumpfileHit query].filterMap fun hit =>
    if hit then some "File operation detected" else none
  sysV ++ fileV

/-- `validate_query_safety` of `src/core/safety.py`: empty or
whitespace-only queries are unsafe with the single empty-query violation;
otherwise dialect dispatch (`database_type.lower() == "mongodb"`) plus the
generic checks, safe exactly when no violation was collected. -/
def validate_query_safety (query database_type : String) (strict : Bool) :
    Bool × List String :=
  if query.data.isEmpty || (pyStrip query).data.isEmpty then (false, ["Empty query"])
  else
    let violations :=
      (if pyLower database_type == "mongodb" then validate_mongodb_query query strict
       else validate_sql_query query strict) ++ validate_generic_safety query
    (violations.length == 0, violations)

/-! ## `src/core/prompting.py` -/

/-- `build_system_prompt` of `src/core/prompting.py`: the fixed system
instruction block. -/
def build_system_prompt : String :=
  "You are QueryForge, a professional SQL/NoSQL query generator.\n\nCRITICAL RULES:\n1. Generate ONLY the requested query - no explanations, markdown, or extra text\n2. Return valid, executable SQL/MongoDB aggregation pipelines\n3. Use proper syntax for the specified database type\n4. Include appropriate JOINs for related tables when needed\n5. Always add LIMIT clauses to prevent excessive data retrieval\n6. Use parameterized query patterns when possible\n7. Optimize for performance and readability\n\nSAFETY REQUIREMENTS:\n- In strict mode, generate ONLY SELECT statements\n- Never generate DDL (CREATE, DROP, ALTER) or DML (INSERT, UPDATE, DELETE) unless explicitly requested\n- Avoid system functions and administrative operations\n- Use proper escaping for string literals\n\nQUALITY STANDARDS:\n- Use consistent formatting and indentation\n- Include meaningful column aliases\n- Use appropriate aggregate functions\n- Handle NULL values appropriately\n- Follow database-specific best practices"

/-- The relational dialect labels (lower case) of the `elif` branch of
`build_user_prompt`. -/
def RELATIONAL_LOWER : List String :=
  ["mysql", "postgresql", "sql server", "sqlite", "oracle"]

/-- `build_user_prompt` of `src/core/prompting.py`: labeled lines joined by
newlines, with a default row limit of 1000, an optional schema block, the
mode and row-limit lines, a dialect-specific instruction block, and the
final only-the-query instruction. -/
def build_user_prompt (question database_type : String)
    (schema_content : Option String) (strict : Bool) (row_limit : Option Int) :
    String :=
  let rl : Int := match row_limit with | none => 1000 | some r => r
  let base := ["Database Type: " ++ database_type, "Question: " ++ question]
  let schemaPart :=
    match schema_content with
    | some sc => if sc.data.isEmpty then [] else ["", "Database Schema:", pyStrip sc]
    | none => []
  let mode := if strict then "strict mode (SELECT-only)" else "flexible mode"
  let modePart := ["", "Mode: " ++ mode, "Row Limit: " ++ toString rl]
  let dialectPart :=
    if pyLower database_type == "mongodb" then
      ["", "Generate a MongoDB aggregation pipeline as a JSON array.",
       "Use proper MongoDB operators and syntax.",
       "Include $limit stage at the end."]
    else if RELATIONAL_LOWER.contains (pyLower database_type) then
      ["", "Generate a " ++ database_type ++ " query.",
       "Use appropriate SQL dialect features.",
       "Include LIMIT/TOP clause for row limiting.",
       "Use proper JOIN syntax when accessing multiple tables."]
    else []
  let tailPart := ["", "Return ONLY the query without any explanation or formatting."]
  String.intercalate "\n" (base ++ schemaPart ++ modePart ++ dialectPart ++ tailPart)

/-- `validate_prompt_inputs` of `src/core/prompting.py`: empty question,
over-long question, empty database type, then the four statement-injection
patterns; the first failing reason is returned. -/
def validate_prompt_inputs (question database_type : String) : Bool × String :=
  if question.data.isEmpty || (pyStrip question).data.isEmpty then
    (false, "Question cannot be empty")
  else if 1000 < question.data.length then
    (false, "Question is too long (max 1000 characters)")
  else if database_type.data.isEmpty || (pyStrip database_type).data.isEmpty then
    (false, "Database type must be specified")
  else if semiDestructiveHit question || parenCallHit "EXEC" question ||
      containsSubCI question "xp_cmdshell" || containsSubCI question "sp_executesql" then
    (false, "Question contains potentially unsafe content")
  else (true, "")

/-! ## `src/core/config.py` (the constants the orchestrator reads) -/

/-- `Config.SUPPORTED_DATABASES`. -/
def SUPPORTED_DATABASES : List String :=
  ["MySQL", "PostgreSQL", "SQL Server", "SQLite", "Oracle", "MongoDB"]

/-- `Config.MODEL_CHAT`, the default model label. -/
def MODEL_CHAT : String := "gpt-3.5-turbo"

/-- `Config.ROW_LIMIT_MAX`. -/
def ROW_LIMIT_MAX : Int := 50000

/-! ## `src/core/generator.py`

The orchestrator's external collaborators (the OpenAI provider and the
schema store) are injected as a capability record.  `chat_completion` is
the single raising stage the embedding models: its `Except.error e` is a
raised exception carrying `str(e)`, caught by the outermost `try`/`except`
of `generate_query`; every validation failure inside the `try` is an early
`return "", message`, embedded as `Except.ok ("", some message)`. -/

/-- The collaborators `QueryGenerator` reaches: `provider.is_configured()`,
`provider.chat_completion(model, messages)` (an `Except.error` is a raised
exception), and `storage.load_schema` (the stored schema's content, or
none when the id resolves to nothing). -/
structure GenEnv where
  providerConfigured : Bool
  chatCompletion : String → List (String × String) → Except String String
  loadSchema : String → Option String

/-- The tail of `generate_query` after schema resolution: build the two
prompt blocks, call the provider, clean the response, and in strict mode
gate it through `validate_query_safety`. -/
def generate_tail (env : GenEnv) (question database_type model : String)
    (strict : Bool) (row_limit : Option Int) (schema_content : Option String) :
    Except String (String × Option String) :=
  match env.chatCompletion model
      [("system", build_system_prompt),
       ("user", build_user_prompt question database_type schema_content strict row_limit)] with
  | Except.error e => Except.error e
  | Except.ok response =>
    if strict then
      if !(validate_query_safety (clean_query_response response) database_type strict).1 then
        Except.ok ("", some ("Query contains unsafe operations: " ++
          String.intercalate "; "
            (validate_query_safety (clean_query_response response) database_type strict).2))
      else Except.ok (clean_query_response response, none)
    else Except.ok (clean_query_response response, none)

/-- The row-limit bound check of `generate_query`: `None` when no limit was
supplied or the limit lies in [1, ROW_LIMIT_MAX], else the error message. -/
def row_limit_error_of : Option Int → Option String
  | none => none
  | some rl =>
    if rl < 1 then some "Row limit must be at least 1"
    else if ROW_LIMIT_MAX < rl then
      some ("Row limit cannot exceed " ++ toString ROW_LIMIT_MAX)
    else none

/-- The body of the `try` block of `QueryGenerator.generate_query`, in
source order: sanitize the question, validate the input shape, check
dialect membership (case-sensitive), check the provider is configured,
bound the row limit when supplied, default the model, resolve the schema
(looking a non-empty id up only when no schema text was given), then
`generate_tail`. -/
def generate_query_body (env : GenEnv) (question database_type : String)
    (model : Option String) (schema_text schema_id : Option String)
    (strict : Bool) (row_limit : Option Int) :
    Except String (String × Option String) :=
  let question := sanitize_input question
  let validated := validate_prompt_inputs question database_type
  if !validated.1 then Except.ok ("", some validated.2)
  else if !(SUPPORTED_DATABASES.contains database_type) then
    Except.ok ("", some ("Unsupported database type: " ++ database_type ++
      ". Supported: " ++ String.intercalate ", " SUPPORTED_DATABASES))
  else if !env.providerConfigured then
    Except.ok ("", some "OpenAI API key not configured or invalid")
  else
    match row_limit_error_of row_limit with
    | some e => Except.ok ("", some e)
    | none =>
      let model := match model with
        | none => MODEL_CHAT
        | some m => if m.data.isEmpty then MODEL_CHAT else m
      let schema_content := schema_text
      match schema_id with
      | some sid =>
        if !sid.data.isEmpty &&
            (match schema_content with
             | none => true
             | some st => st.data.isEmpty) then
          match env.loadSchema sid with
          | some content =>
            generate_tail env question database_type model strict row_limit (some content)
          | none =>
            Except.ok ("", some ("Schema with ID " ++ sid ++ " not found"))
        else generate_tail env question database_type model strict row_limit schema_content
      | none => generate_tail env question database_type model strict row_limit schema_content

/-- `QueryGenerator.generate_query` of `src/core/generator.py`: the body
runs inside `try`; any exception `e` is caught at this outermost boundary
and reported as the generic generation error. -/
def generate_query (env : GenEnv) (question database_type : String)
    (model : Option String) (schema_text schema_id : Option String)
    (strict : Bool) (row_limit : Option Int) : String × Option String :=
  match generate_query_body env question database_type model schema_text schema_id
      strict row_limit with
  | Except.ok r => r
  | Except.error e => ("", some ("Generation error: " ++ e))

/-! ## Concrete fixtures for witnesses and counterexamples -/

/-- A fully working collaborator record: provider configured, completions
answer with a fixed harmless query, no stored schemas. -/
def envOk : GenEnv :=
  { providerConfigured := true
    chatCompletion := fun _ _ => Except.ok "SELECT 1"
    loadSchema := fun _ => none }

/-- A collaborator record whose provider call raises. -/
def envBoom : GenEnv :=
  { providerConfigured := true
    chatCompletion := fun _ _ => Except.error "boom"
    loadSchema := fun _ => none }

/-- A collaborator record differing from `envOk` in every field. -/
def envAlt : GenEnv :=
  { providerConfigured := false
    chatCompletion := fun _ _ => Except.error "other"
    loadSchema := fun _ => some "t (id INT)" }

/-- A 1001-character raw question whose sanitized form has 500 characters:
500 letters followed by 501 spaces. -/
def qPadded : String := String.mk (List.replicate 500 'a' ++ List.replicate 501 ' ')

/-- A 1500-character raw question that still has 1500 characters after
sanitization. -/
def qOverlong : String := String.mk (List.replicate 1500 'a')

/-- The counterexample input for the prefix-removal claim:
"Here's the query: SQL: SELECT 1". -/
def exStackedPrefixes : String :=
  String.mk (PREFIX_HERES_QUERY.data ++ " SQL: SELECT 1".data)

/-- The counterexample input for the idempotence claim: "Query: Query: z". -/
def exDoubledQuery : String := "Query: Query: z"

/-- The counterexample input for the MongoDB parse-failure claim: a
JSON-shaped query that fails to parse and contains an unsafe operator. -/
def exBadMongo : String := String.mk (cLBrace :: "$out".data)

/-! ## Helper lemmas -/

/-- Rebuilding a string from its character list is the identity. -/
theorem strMk_data (s : String) : String.mk s.data = s := by cases s; rfl

/-- Character data of an appended string. -/
theorem strData_append (a b : String) : (a ++ b).data = a.data ++ b.data := rfl

/-- Two strings whose character data have different heads differ; the left
one is given as an append with a non-empty first part. -/
theorem strAppend_ne_of_head (p s t : String) (c : Char)
    (hp : p.data.head? = some c) (ht : t.data.head? ≠ some c) : p ++ s ≠ t := by
  intro he
  apply ht
  rw [← he, strData_append]
  cases hd : p.data with
  | nil => rw [hd] at hp; exact absurd hp (by simp)
  | cons x xs =>
    rw [hd] at hp
    simp at hp
    simp [hd, hp]

/-- `isPrefixOf` on character lists is the existence of a completing
suffix. -/
theorem isPrefixOf_iff_append {l s : List Char} :
    l.isPrefixOf s = true ↔ ∃ r, s = l ++ r := by
  induction l generalizing s with
  | nil => simp [List.isPrefixOf]
  | cons a as ih =>
    cases s with
    | nil => simp [List.isPrefixOf]
    | cons b bs =>
      simp only [List.isPrefixOf, Bool.and_eq_true, beq_iff_eq, ih]
      constructor
      · rintro ⟨hab, r, hr⟩
        exact ⟨r, by simp [hab, hr]⟩
      · rintro ⟨r, hr⟩
        simp only [List.cons_append, List.cons.injEq] at hr
        exact ⟨hr.1.symm, r, hr.2⟩

/-- `containsSub` is the existence of a literal-substring decomposition. -/
theorem containsSub_iff {s sub : List Char} :
    containsSub s sub = true ↔ ∃ l r, s = l ++ sub ++ r := by
  induction s with
  | nil =>
    simp only [containsSub, Bool.or_eq_true, isPrefixOf_iff_append]
    constructor
    · rintro (⟨r, hr⟩ | h)
      · exact ⟨[], r, by simpa using hr⟩
      · simp at h
    · rintro ⟨l, r, hr⟩
      cases l <;> cases sub <;> simp_all
  | cons c t ih =>
    simp only [containsSub, Bool.or_eq_true, isPrefixOf_iff_append, ih]
    constructor
    · rintro (⟨r, hr⟩ | ⟨l, r, hr⟩)
      · exact ⟨[], r, by simpa using hr⟩
      · exact ⟨c :: l, r, by simp [hr]⟩
    · rintro ⟨l, r, hr⟩
      cases l with
      | nil => exact Or.inl ⟨r, by simpa using hr⟩
      | cons x xs =>
        simp only [List.cons_append, List.cons.injEq] at hr
        exact Or.inr ⟨xs, r, hr.2⟩

/-- A substring of a suffix (by `drop`) is a substring. -/
theorem containsSub_of_drop {s sub : List Char} (n : Nat)
    (h : containsSub (s.drop n) sub = true) : containsSub s sub = true := by
  rw [containsSub_iff] at h ⊢
  obtain ⟨l, r, hr⟩ := h
  refine ⟨s.take n ++ l, r, ?_⟩
  conv_lhs => rw [← List.take_append_drop n s]
  rw [hr]
  simp

/-- A substring of a prefix (by `take`) is a substring. -/
theorem containsSub_of_take {s sub : List Char} (n : Nat)
    (h : containsSub (s.take n) sub = true) : containsSub s sub = true := by
  rw [containsSub_iff] at h ⊢
  obtain ⟨l, r, hr⟩ := h
  refine ⟨l, r ++ s.drop n, ?_⟩
  conv_lhs => rw [← List.take_append_drop n s]
  rw [hr]
  simp

/-- `dropWhile` is a `drop`. -/
theorem dropWhile_eq_drop (p : Char → Bool) (l : List Char) :
    ∃ n, l.dropWhile p = l.drop n := by
  induction l with
  | nil => exact ⟨0, rfl⟩
  | cons c rest ih =>
    by_cases h : p c
    · obtain ⟨n, hn⟩ := ih
      exact ⟨n + 1, by simp [List.dropWhile_cons_of_pos h, hn]⟩
    · exact ⟨0, by simp [List.dropWhile_cons_of_neg h]⟩

/-- `dropTrailingWs` is a `take`. -/
theorem dropTrailingWs_eq_take (l : List Char) :
    ∃ n, dropTrailingWs l = l.take n := by
  induction l with
  | nil => exact ⟨0, rfl⟩
  | cons c rest ih =>
    obtain ⟨n, hn⟩ := ih
    cases hr : dropTrailingWs rest with
    | nil =>
      by_cases h : isPyWs c
      · exact ⟨0, by simp [dropTrailingWs, hr, h]⟩
      · exact ⟨1, by simp [dropTrailingWs, hr, h]⟩
    | cons x xs =>
      refine ⟨n + 1, ?_⟩
      simp only [dropTrailingWs, hr, List.take_succ_cons]
      rw [← hr, hn]

/-- A substring of `pyStripL s` is a substring of `s`. -/
theorem containsSub_of_pyStripL {s sub : List Char}
    (h : containsSub (pyStripL s) sub = true) : containsSub s sub = true := by
  unfold pyStripL at h
  obtain ⟨n, hn⟩ := dropTrailingWs_eq_take (s.dropWhile isPyWs)
  rw [hn] at h
  have h2 := containsSub_of_take n h
  obtain ⟨m, hm⟩ := dropWhile_eq_drop isPyWs s
  rw [hm] at h2
  exact containsSub_of_drop m h2

/-- `dropWhile` is idempotent. -/
theorem dropWhile_idem (p : Char → Bool) (l : List Char) :
    (l.dropWhile p).dropWhile p = l.dropWhile p := by
  cases h : l.dropWhile p with
  | nil => rfl
  | cons c rest =>
    have hc := List.head?_dropWhile_not p l
    rw [h] at hc
    simp only [List.head?_cons] at hc
    exact List.dropWhile_cons_of_neg (by simp [hc])

/-- `dropTrailingWs` of a cons is empty or keeps the head. -/
theorem dropTrailingWs_cons_shape (c : Char) (rest : List Char) :
    dropTrailingWs (c :: rest) = [] ∨
      ∃ r, dropTrailingWs (c :: rest) = c :: r := by
  cases hr : dropTrailingWs rest with
  | nil =>
    by_cases h : isPyWs c
    · exact Or.inl (by simp [dropTrailingWs, hr, h])
    · exact Or.inr ⟨[], by simp [dropTrailingWs, hr, h]⟩
  | cons x xs => exact Or.inr ⟨x :: xs, by simp [dropTrailingWs, hr]⟩

/-- `dropTrailingWs` preserves having no leading whitespace. -/
theorem dropWhile_dropTrailingWs (t : List Char)
    (h : t.dropWhile isPyWs = t) :
    (dropTrailingWs t).dropWhile isPyWs = dropTrailingWs t := by
  cases t with
  | nil => rfl
  | cons c rest =>
    have hc : isPyWs c = false := by
      by_contra hcc
      simp only [Bool.not_eq_false] at hcc
      rw [List.dropWhile_cons_of_pos hcc] at h
      obtain ⟨n, hn⟩ := dropWhile_eq_drop isPyWs rest
      have h2 := congrArg List.length h
      rw [hn] at h2
      simp [List.length_drop] at h2
      omega
    rcases dropTrailingWs_cons_shape c rest with he | ⟨r, hr⟩
    · rw [he]; rfl
    · rw [hr, List.dropWhile_cons_of_neg (by simp [hc])]

/-- `dropTrailingWs` is idempotent. -/
theorem dropTrailingWs_idem (l : List Char) :
    dropTrailingWs (dropTrailingWs l) = dropTrailingWs l := by
  induction l with
  | nil => rfl
  | cons c rest ih =>
    cases hr : dropTrailingWs rest with
    | nil =>
      by_cases h : isPyWs c
      · simp [dropTrailingWs, hr, h]
      · simp [dropTrailingWs, hr, h]
    | cons x xs =>
      have hshape : dropTrailingWs (c :: rest) = c :: x :: xs := by
        simp [dropTrailingWs, hr]
      rw [hshape]
      rw [hr] at ih
      calc dropTrailingWs (c :: x :: xs)
          = (match dropTrailingWs (x :: xs) with
             | [] => if isPyWs c = true then [] else [c]
             | r => c :: r) := rfl
        _ = c :: x :: xs := by rw [ih]

/-- Python `strip` is idempotent. -/
theorem pyStripL_idem (s : List Char) : pyStripL (pyStripL s) = pyStripL s := by
  unfold pyStripL
  rw [dropWhile_dropTrailingWs _ (dropWhile_idem isPyWs s), dropTrailingWs_idem]

/-- A list holding a non-whitespace character strips to a non-empty list. -/
theorem pyStripL_ne_nil_of_mem {s : List Char} {c : Char}
    (hc : c ∈ s) (hw : isPyWs c = false) : pyStripL s ≠ [] := by
  have hcdw : c ∈ s.dropWhile isPyWs := by
    have hsplit := List.takeWhile_append_dropWhile (p := isPyWs) (l := s)
    rw [← hsplit] at hc
    rcases List.mem_append.mp hc with h | h
    · exact absurd (List.mem_takeWhile_imp h) (by simp [hw])
    · exact h
  unfold pyStripL
  generalize s.dropWhile isPyWs = t at hcdw
  clear hc
  induction t with
  | nil => simp at hcdw
  | cons d rest ih =>
    rcases List.mem_cons.mp hcdw with h | h
    · subst h
      cases hr : dropTrailingWs rest with
      | nil => simp [dropTrailingWs, hr, hw]
      | cons x xs => simp [dropTrailingWs, hr]
    · have := ih h
      cases hr : dropTrailingWs rest with
      | nil => exact absurd hr this
      | cons x xs => simp [dropTrailingWs, hr]

/-- Uppercasing fixes whitespace characters. -/
theorem toUpper_of_pyWs {c : Char} (h : isPyWs c = true) : Char.toUpper c = c := by
  simp only [isPyWs, Bool.or_eq_true, beq_iff_eq] at h
  rcases h with ((((h | h) | h) | h) | h) | h <;> subst h <;> decide

/-- A word-boundary occurrence is in particular a substring occurrence. -/
theorem containsSub_of_wordScan {kw : List Char} :
    ∀ (prev : Option Char) (s : List Char),
      wordScan kw prev s = true → containsSub s kw = true := by
  intro prev s
  induction s generalizing prev with
  | nil =>
    intro h
    simp only [wordScan, boundedAt, Bool.and_eq_true] at h
    simp only [containsSub, Bool.or_eq_true]
    exact Or.inl h.1.2
  | cons c rest ih =>
    intro h
    simp only [wordScan, Bool.or_eq_true] at h
    rcases h with h1 | h2
    · simp only [boundedAt, Bool.and_eq_true] at h1
      simp only [containsSub, Bool.or_eq_true]
      exact Or.inl h1.1.2
    · simp only [containsSub, Bool.or_eq_true]
      exact Or.inr (ih (some c) h2)

/-- A replicated-backtick prefix is a lower bound on the leading backtick
run. -/
theorem replicate_btick_isPrefixOf_iff :
    ∀ (k : Nat) (t : List Char),
      (List.replicate k btick).isPrefixOf t = true ↔ k ≤ leadTicks t := by
  intro k
  induction k with
  | zero => intro t; simp [List.isPrefixOf]
  | succ k ih =>
    intro t
    cases t with
    | nil => simp [List.isPrefixOf, List.replicate_succ, leadTicks]
    | cons c rest =>
      by_cases hc : c = btick
      · subst hc
        simp only [List.replicate_succ, List.isPrefixOf, Bool.and_eq_true, beq_iff_eq, ih,
          leadTicks, beq_self_eq_true, if_true, true_and]
        omega
      · have hbc : (c == btick) = false := by simp [hc]
        simp only [List.replicate_succ, List.isPrefixOf, Bool.and_eq_true, beq_iff_eq, ih,
          leadTicks, hbc]
        simp [Ne.symm hc]

/-- The three-backtick fence as a replicate. -/
theorem fence3_eq_replicate : "```".data = List.replicate 3 btick := by decide

/-- The fence is a prefix exactly when at least three backticks lead. -/
theorem fence_isPrefixOf_iff (t : List Char) :
    ("```".data).isPrefixOf t = true ↔ 3 ≤ leadTicks t := by
  rw [fence3_eq_replicate]
  exact replicate_btick_isPrefixOf_iff 3 t

/-- Dropping part of the leading backtick run shortens it exactly. -/
theorem leadTicks_drop :
    ∀ (k : Nat) (s : List Char), k ≤ leadTicks s →
      leadTicks (s.drop k) = leadTicks s - k := by
  intro k
  induction k with
  | zero => intro s _; simp
  | succ k ih =>
    intro s hk
    cases s with
    | nil => simp [leadTicks]
    | cons c rest =>
      by_cases hc : c = btick
      · subst hc
        simp only [leadTicks, beq_self_eq_true, if_true] at hk ⊢
        rw [List.drop_succ_cons, ih rest (by omega)]
        omega
      · have hbc : (c == btick) = false := by simp [hc]
        simp only [leadTicks, hbc, Bool.false_eq_true, if_false] at hk
        exact absurd hk (by omega)

/-- The bare-fence deletion pass never leaves a fence in its output, and
never lengthens the leading backtick run. -/
theorem reSubDel_triple_inv :
    ∀ (n : Nat) (s : List Char), s.length ≤ n →
      leadTicks (reSubDelAux tripleMatchRest n s) ≤ leadTicks s ∧
        containsSub (reSubDelAux tripleMatchRest n s) ("```".data) = false := by
  intro n
  induction n with
  | zero =>
    intro s hs
    have hnil : s = [] := List.eq_nil_of_length_eq_zero (Nat.le_zero.mp hs)
    subst hnil
    exact ⟨Nat.le_refl _, by decide⟩
  | succ n ih =>
    intro s hs
    cases s with
    | nil =>
      refine ⟨Nat.le_refl _, ?_⟩
      show containsSub [] ("```".data) = false
      decide
    | cons c rest =>
      by_cases hpre : ("```".data).isPrefixOf (c :: rest) = true
      · have hmatch : tripleMatchRest (c :: rest) = some ((c :: rest).drop 3) := by
          simp [tripleMatchRest, hpre]
        have hstep : reSubDelAux tripleMatchRest (n + 1) (c :: rest) =
            reSubDelAux tripleMatchRest n ((c :: rest).drop 3) := by
          simp [reSubDelAux, hmatch]
        have hlen : ((c :: rest).drop 3).length ≤ n := by
          simp only [List.length_drop, List.length_cons]
          simp only [List.length_cons] at hs
          omega
        obtain ⟨h1, h2⟩ := ih ((c :: rest).drop 3) hlen
        have h3 : 3 ≤ leadTicks (c :: rest) := (fence_isPrefixOf_iff _).mp hpre
        have h4 : leadTicks ((c :: rest).drop 3) = leadTicks (c :: rest) - 3 :=
          leadTicks_drop 3 _ h3
        rw [hstep]
        exact ⟨by omega, h2⟩
      · have hmatch : tripleMatchRest (c :: rest) = none := by
          simp only [Bool.not_eq_true] at hpre
          simp [tripleMatchRest, hpre]
        have hstep : reSubDelAux tripleMatchRest (n + 1) (c :: rest) =
            c :: reSubDelAux tripleMatchRest n rest := by
          simp [reSubDelAux, hmatch]
        have hlen : rest.length ≤ n := by
          simp only [List.length_cons] at hs
          omega
        obtain ⟨h1, h2⟩ := ih rest hlen
        rw [hstep]
        constructor
        · simp only [leadTicks]
          by_cases hc : c = btick
          · subst hc
            simp only [beq_self_eq_true, if_true]
            omega
          · have hbc : (c == btick) = false := by simp [hc]
            simp [hbc]
        · simp only [containsSub, Bool.or_eq_false_iff]
          refine ⟨?_, h2⟩
          by_cases hc : c = btick
          · subst hc
            rw [Bool.eq_false_iff]
            intro habs
            have h5 := (fence_isPrefixOf_iff _).mp habs
            have h6 : ¬ 3 ≤ leadTicks (btick :: rest) := fun hx =>
              hpre ((fence_isPrefixOf_iff _).mpr hx)
            simp only [leadTicks, beq_self_eq_true, if_true] at h5 h6
            omega
          · have hbc : (c == btick) = false := by simp [hc]
            rw [Bool.eq_false_iff]
            intro habs
            have h5 := (fence_isPrefixOf_iff _).mp habs
            simp only [leadTicks, hbc, Bool.false_eq_true, if_false] at h5
            exact absurd h5 (by omega)

/-- Deletion passes keyed on a fence head are the identity on fence-free
text. -/
theorem reSubDel_id (f : List Char → Option (List Char))
    (hf : ∀ t, ("```".data).isPrefixOf t = false → f t = none) :
    ∀ (n : Nat) (s : List Char), containsSub s ("```".data) = false →
      reSubDelAux f n s = s := by
  intro n
  induction n with
  | zero => intro s _; rfl
  | succ n ih =>
    intro s hs
    cases s with
    | nil => rfl
    | cons c rest =>
      simp only [containsSub, Bool.or_eq_false_iff] at hs
      have hnone := hf _ hs.1
      simp only [reSubDelAux, hnone]
      rw [ih rest hs.2]

/-- The fenced-code matcher refuses fence-free heads. -/
theorem fenceMatchRest_none (t : List Char)
    (h : ("```".data).isPrefixOf t = false) : fenceMatchRest t = none := by
  simp [fenceMatchRest, h]

/-- The bare-fence matcher refuses fence-free heads. -/
theorem tripleMatchRest_none (t : List Char)
    (h : ("```".data).isPrefixOf t = false) : tripleMatchRest t = none := by
  simp [tripleMatchRest, h]

/-- The prefix-removal fold keeps a stripped text stripped. -/
theorem foldl_stripPrefixStep_stripped :
    ∀ (l : List String) (t : String), pyStripL t.data = t.data →
      pyStripL (l.foldl stripPrefixStep t).data = (l.foldl stripPrefixStep t).data := by
  intro l
  induction l with
  | nil => intro t ht; exact ht
  | cons p ps ih =>
    intro t ht
    simp only [List.foldl_cons]
    apply ih
    unfold stripPrefixStep
    by_cases h : prefixMatches t p
    · simp only [h, if_true]
      exact pyStripL_idem _
    · simp only [h, if_false]
      exact ht

/-- The prefix-removal fold keeps fence-free text fence-free. -/
theorem foldl_stripPrefixStep_noTriple :
    ∀ (l : List String) (t : String), containsSub t.data ("```".data) = false →
      containsSub (l.foldl stripPrefixStep t).data ("```".data) = false := by
  intro l
  induction l with
  | nil => intro t ht; exact ht
  | cons p ps ih =>
    intro t ht
    simp only [List.foldl_cons]
    apply ih
    unfold stripPrefixStep
    by_cases h : prefixMatches t p
    · simp only [h, if_true]
      rw [Bool.eq_false_iff]
      intro habs
      have h2 := containsSub_of_pyStripL habs
      have h3 := containsSub_of_drop p.data.length h2
      rw [ht] at h3
      exact Bool.false_ne_true h3
    · simp only [h, if_false]
      exact ht

/-- The prefix-removal fold is the identity when no listed prefix matches
the current text (none can start matching later, since the text then never
changes). -/
theorem foldl_stripPrefixStep_of_no_match :
    ∀ (l : List String) (t : String), (∀ p ∈ l, prefixMatches t p = false) →
      l.foldl stripPrefixStep t = t := by
  intro l
  induction l with
  | nil => intro t _; rfl
  | cons p ps ih =>
    intro t h
    simp only [List.foldl_cons]
    have hp : prefixMatches t p = false := h p (List.mem_cons_self p ps)
    unfold stripPrefixStep
    rw [hp]
    simp only [Bool.false_eq_true, if_false]
    exact ih t fun q hq => h q (List.mem_cons_of_mem p hq)

/-- The cleaned response never contains a three-backtick fence. -/
theorem clean_query_response_noTriple (x : String) :
    containsSub (clean_query_response x).data ("```".data) = false := by
  unfold clean_query_response
  by_cases hx : x.data.isEmpty
  · simp only [hx, if_true]
    decide
  · simp only [hx, Bool.false_eq_true, if_false]
    apply foldl_stripPrefixStep_noTriple
    show containsSub (pyStripL (subTripleStr (subFenceStr x)).data) _ = false
    rw [Bool.eq_false_iff]
    intro habs
    have h2 := containsSub_of_pyStripL habs
    have h3 := (reSubDel_triple_inv (subFenceStr x).data.length (subFenceStr x).data
      (Nat.le_refl _)).2
    unfold subTripleStr at h2
    rw [h3] at h2
    exact Bool.false_ne_true h2

/-- The cleaned response is stripped. -/
theorem clean_query_response_stripped (x : String) :
    pyStripL (clean_query_response x).data = (clean_query_response x).data := by
  unfold clean_query_response
  by_cases hx : x.data.isEmpty
  · simp only [hx, if_true]
    rfl
  · simp only [hx, Bool.false_eq_true, if_false]
    apply foldl_stripPrefixStep_stripped
    exact pyStripL_idem _

/-- Unfolding of `clean_query_response` on non-empty input. -/
theorem clean_query_response_eq_of_nonempty (x : String)
    (hx : x.data.isEmpty = false) :
    clean_query_response x =
      prefixes_to_remove.foldl stripPrefixStep
        (String.mk (pyStripL (subTripleStr (subFenceStr x)).data)) := by
  unfold clean_query_response
  rw [hx]
  rfl

/-- Claim C4 (counterexample): on "Here's the query: SQL: SELECT 1" the
cleaner removes the first matching prefix and then also the "SQL:" prefix
the removal uncovered, yielding "SELECT 1" instead of the
"SQL: SELECT 1" that removing only the first matching prefix would give. -/
theorem claim_C4_counterexample :
    clean_query_response exStackedPrefixes = "SELECT 1" ∧
      clean_query_response exStackedPrefixes ≠ "SQL: SELECT 1" := by
  constructor
  · decide
  · decide

/-- Claim C4 (amended): after stripping code fences and trimming,
`clean_query_response` walks the fixed prefix list in order, removing each
listed prefix that matches the current text (and re-trimming); in
particular, once the first matching prefix `p` is removed, processing
continues with exactly the prefixes listed after `p`, so a later-listed
prefix uncovered by the removal is also removed, while each listed prefix
is removed at most once. -/
theorem claim_C4_amended (response : String) (l1 l2 : List String) (p : String)
    (hne : response.data.isEmpty = false)
    (hsplit : prefixes_to_remove = l1 ++ p :: l2)
    (hmiss : ∀ q ∈ l1, prefixMatches (pyStrip (subTripleStr (subFenceStr response))) q = false)
    (hhit : prefixMatches (pyStrip (subTripleStr (subFenceStr response))) p = true) :
    clean_query_response response =
      l2.foldl stripPrefixStep
        (String.mk (pyStripL
          ((pyStrip (subTripleStr (subFenceStr response))).data.drop p.data.length))) := by
  rw [clean_query_response_eq_of_nonempty _ hne]
  have ht : String.mk (pyStripL (subTripleStr (subFenceStr response)).data)
      = pyStrip (subTripleStr (subFenceStr response)) := rfl
  rw [ht, hsplit, List.foldl_append,
    foldl_stripPrefixStep_of_no_match l1 _ hmiss]
  simp only [List.foldl_cons]
  unfold stripPrefixStep
  rw [hhit, if_pos rfl]

/-- Claim C4 (witness): the amended statement applied to the concrete
stacked-prefix response, with the first four prefixes failing to match and
"SQL:" the uncovered later prefix. -/
theorem claim_C4_witness :
    clean_query_response "SQL: SELECT 1" =
      ["MongoDB:"].foldl stripPrefixStep
        (String.mk (pyStripL
          ((pyStrip (subTripleStr (subFenceStr "SQL: SELECT 1"))).data.drop
            ("SQL:" : String).data.length))) :=
  claim_C4_amended "SQL: SELECT 1"
    [PREFIX_HERES_SQL, PREFIX_HERES_QUERY, "The query is:", "Query:"] ["MongoDB:"] "SQL:"
    (by decide) (by decide) (by decide) (by decide)

/-- Claim C5 (counterexample): `clean_query_response` is not idempotent:
cleaning "Query: Query: z" once yields "Query: z", cleaning twice yields
"z". -/
theorem claim_C5_counterexample :
    clean_query_response exDoubledQuery = "Query: z" ∧
      clean_query_response (clean_query_response exDoubledQuery) = "z" ∧
      clean_query_response (clean_query_response exDoubledQuery) ≠
        clean_query_response exDoubledQuery := by
  refine ⟨by decide, by decide, by decide⟩

/-- Claim C5 (amended): `clean_query_response` is idempotent on every input
whose cleaned result does not begin (case-insensitively) with one of the
narrative prefixes; a cleaned result that still begins with a listed prefix
(possible when a removal uncovers an earlier-listed prefix) is cleaned
further by a second application. -/
theorem claim_C5_amended (x : String)
    (h : ∀ p ∈ prefixes_to_remove, prefixMatches (clean_query_response x) p = false) :
    clean_query_response (clean_query_response x) = clean_query_response x := by
  have hnt := clean_query_response_noTriple x
  have hst := clean_query_response_stripped x
  by_cases hre : (clean_query_response x).data.isEmpty
  · have hnil : clean_query_response x = "" := by
      rw [← strMk_data (clean_query_response x), List.isEmpty_iff.mp hre]
    rw [hnil]
    decide
  · have hre2 : (clean_query_response x).data.isEmpty = false := by
      rwa [Bool.not_eq_true] at hre
    have h1 : subFenceStr (clean_query_response x) = clean_query_response x := by
      unfold subFenceStr
      rw [reSubDel_id fenceMatchRest fenceMatchRest_none _ _ hnt, strMk_data]
    have h2 : subTripleStr (clean_query_response x) = clean_query_response x := by
      unfold subTripleStr
      rw [reSubDel_id tripleMatchRest tripleMatchRest_none _ _ hnt, strMk_data]
    rw [clean_query_response_eq_of_nonempty _ hre2, h1, h2, hst, strMk_data]
    exact foldl_stripPrefixStep_of_no_match prefixes_to_remove _ h

/-- Claim C5 (witness): the amended idempotence applied to a concrete
response whose cleaned form starts with no narrative prefix. -/
theorem claim_C5_witness :
    clean_query_response (clean_query_response "SELECT id FROM users") =
      clean_query_response "SELECT id FROM users" :=
  claim_C5_amended "SELECT id FROM users" (by decide)

/-- On a non-empty, non-whitespace query and a non-MongoDB dialect,
`validate_query_safety` collects the SQL and generic violations. -/
theorem validate_query_safety_snd_sql (q dialect : String) (strict : Bool)
    (h1 : q.data.isEmpty = false) (h2 : (pyStrip q).data.isEmpty = false)
    (h3 : (pyLower dialect == "mongodb") = false) :
    (validate_query_safety q dialect strict).2 =
      validate_sql_query q strict ++ validate_generic_safety q := by
  simp [validate_query_safety, h1, h2, h3]

/-- On a non-empty, non-whitespace query and the MongoDB dialect,
`validate_query_safety` collects the MongoDB and generic violations. -/
theorem validate_query_safety_snd_mongo (q : String) (strict : Bool)
    (h1 : q.data.isEmpty = false) (h2 : (pyStrip q).data.isEmpty = false) :
    (validate_query_safety q "mongodb" strict).2 =
      validate_mongodb_query q strict ++ validate_generic_safety q := by
  have hm : (pyLower "mongodb" == "mongodb") = true := by decide
  simp [validate_query_safety, h1, h2, hm]

/-- A verdict with at least one violation is unsafe. -/
theorem validate_query_safety_fst_false (q dialect : String) (strict : Bool)
    (v : String) (hv : v ∈ (validate_query_safety q dialect strict).2) :
    (validate_query_safety q dialect strict).1 = false := by
  unfold validate_query_safety at hv ⊢
  by_cases hcond : (q.data.isEmpty || (pyStrip q).data.isEmpty) = true
  · simp [hcond]
  · simp only [Bool.not_eq_true] at hcond
    simp only [hcond, Bool.false_eq_true, if_false] at hv ⊢
    have hne := List.ne_nil_of_mem hv
    have hlen : (((if pyLower dialect == "mongodb" then
        validate_mongodb_query q strict else validate_sql_query q strict) ++
        validate_generic_safety q)).length ≠ 0 := by
      intro h0
      exact hne (List.eq_nil_of_length_eq_zero h0)
    simpa using hlen

/-- A non-whitespace character in a string keeps its stripped data
non-empty (string form of `pyStripL_ne_nil_of_mem`). -/
theorem strip_isEmpty_false_of_mem {q : String} {c : Char}
    (hc : c ∈ q.data) (hw : isPyWs c = false) :
    (pyStrip q).data.isEmpty = false ∧ q.data.isEmpty = false := by
  constructor
  · have := pyStripL_ne_nil_of_mem hc hw
    show (pyStripL q.data).isEmpty = false
    cases h : pyStripL q.data with
    | nil => exact absurd h this
    | cons _ _ => rfl
  · cases h : q.data with
    | nil => rw [h] at hc; exact absurd hc (List.not_mem_nil c)
    | cons _ _ => rfl

/-- Every unsafe SQL keyword begins with a non-whitespace character. -/
theorem unsafe_sql_keywords_head :
    (UNSAFE_SQL_KEYWORDS.all fun kw =>
      match kw.data with
      | c :: _ => !isPyWs c
      | [] => false) = true := by decide

/-- Every unsafe MongoDB operation name begins with a non-whitespace
character. -/
theorem unsafe_mongo_operations_head :
    (UNSAFE_MONGO_OPERATIONS.all fun op =>
      match op.data with
      | c :: _ => !isPyWs c
      | [] => false) = true := by decide

/-- Claim C9: for the MongoDB dialect the strict flag has no effect on the
safety verdict: `_validate_mongodb_query` receives `strict` but never reads
it, the write-operation violation and the operator denylist scan run
unconditionally, so the whole `(is_safe, violations)` pair coincides for
`strict = true` and `strict = false`. -/
theorem claim_C9_strict_irrelevant_for_mongodb (q dialect : String)
    (h : pyLower dialect = "mongodb") :
    validate_query_safety q dialect true = validate_query_safety q dialect false := by
  unfold validate_query_safety
  rw [h]
  rfl

/-- Claim C9 (witness): the strict flag does not change the verdict on a
concrete MongoDB query. -/
theorem claim_C9_witness :
    validate_query_safety "[]" "MongoDB" true = validate_query_safety "[]" "MongoDB" false :=
  claim_C9_strict_irrelevant_for_mongodb "[]" "MongoDB" (by decide)

/-- Claim C2: on any non-document-store dialect, every denylisted SQL
keyword occurring in the query as a case-insensitive whole word (the
word-boundary search `_validate_sql_query` performs on the uppercased
query) contributes its named violation to the verdict's violation list;
since this holds for each such keyword simultaneously, every matching
keyword is named, not just the first. -/
theorem claim_C2_keyword_denylist (q dialect : String) (strict : Bool) (kw : String)
    (hdialect : pyLower dialect ≠ "mongodb")
    (hkw : kw ∈ UNSAFE_SQL_KEYWORDS)
    (hhit : sqlKeywordHit (pyUpper q) kw = true) :
    ("Unsafe SQL keyword detected: " ++ kw) ∈ (validate_query_safety q dialect strict).2 := by
  have hsub : containsSub (pyUpper q).data kw.data = true :=
    containsSub_of_wordScan none _ hhit
  have hkwhead := List.all_eq_true.mp unsafe_sql_keywords_head kw hkw
  cases hd : kw.data with
  | nil => rw [hd] at hkwhead; exact absurd hkwhead (by simp)
  | cons c rest =>
    rw [hd] at hkwhead hsub
    have hcws : isPyWs c = false := by
      simp only [Bool.not_eq_true'] at hkwhead
      exact hkwhead
    obtain ⟨l, r, heq⟩ := containsSub_iff.mp hsub
    have hcmem : c ∈ (pyUpper q).data := by
      rw [heq]
      simp
    obtain ⟨c0, hc0mem, hc0up⟩ := List.mem_map.mp hcmem
    have hc0ws : isPyWs c0 = false := by
      by_contra habs
      simp only [Bool.not_eq_false] at habs
      rw [toUpper_of_pyWs habs] at hc0up
      rw [hc0up] at habs
      rw [habs] at hcws
      exact Bool.noConfusion hcws
    obtain ⟨hstrip, hqne⟩ := strip_isEmpty_false_of_mem hc0mem hc0ws
    have hm : (pyLower dialect == "mongodb") = false := by
      rw [beq_eq_false_iff_ne]
      exact hdialect
    rw [validate_query_safety_snd_sql q dialect strict hqne hstrip hm]
    apply List.mem_append_left
    unfold validate_sql_query
    apply List.mem_append_left
    apply List.mem_append_right
    exact List.mem_filterMap.mpr ⟨kw, hkw, by rw [hhit]; rfl⟩

/-- Claim C2 (witness): the DROP keyword violation appears for a concrete
MySQL query that contains DROP as a whole word. -/
theorem claim_C2_witness :
    ("Unsafe SQL keyword detected: " ++ "DROP") ∈
      (validate_query_safety "SELECT 1; DROP TABLE t" "MySQL" true).2 :=
  claim_C2_keyword_denylist "SELECT 1; DROP TABLE t" "MySQL" true "DROP"
    (by decide) (by decide) (by decide)

/-- Claim C3 (counterexample): the empty query is in a relational dialect
with strict mode a query whose trimmed text begins with neither SELECT nor
WITH, yet its verdict carries only the empty-query violation and not the
strict-mode violation — `validate_query_safety` returns early before the
strict-mode gate runs. -/
theorem claim_C3_counterexample :
    (("SELECT".data).isPrefixOf (pyUpper (pyStrip "")).data = false) ∧
      (("WITH".data).isPrefixOf (pyUpper (pyStrip "")).data = false) ∧
      validate_query_safety "" "PostgreSQL" true = (false, ["Empty query"]) ∧
      "Only SELECT statements allowed in strict mode" ∉
        (validate_query_safety "" "PostgreSQL" true).2 := by
  refine ⟨by decide, by decide, by decide, by decide⟩

/-- Claim C3 (amended): for every relational-family dialect with
strict=true, any query that is not empty or whitespace-only and whose
trimmed, case-normalized text begins with neither SELECT nor WITH yields an
unsafe verdict whose violation list contains the strict-mode violation;
empty or whitespace-only queries instead yield the unsafe verdict carrying
only the empty-query violation. -/
theorem claim_C3_amended (q dialect : String)
    (hdialect : dialect ∈ ["MySQL", "PostgreSQL", "SQL Server", "SQLite", "Oracle"])
    (hne : (pyStrip q).data.isEmpty = false)
    (hsel : ("SELECT".data).isPrefixOf (pyUpper (pyStrip q)).data = false)
    (hwith : ("WITH".data).isPrefixOf (pyUpper (pyStrip q)).data = false) :
    (validate_query_safety q dialect true).1 = false ∧
      "Only SELECT statements allowed in strict mode" ∈
        (validate_query_safety q dialect true).2 := by
  have hqne : q.data.isEmpty = false := by
    cases hq : q.data with
    | nil =>
      have : (pyStrip q).data = [] := by
        show pyStripL q.data = []
        rw [hq]
        rfl
      rw [this] at hne
      exact absurd hne (by simp)
    | cons _ _ => rfl
  have hm : (pyLower dialect == "mongodb") = false := by
    fin_cases hdialect <;> decide
  have hmem : "Only SELECT statements allowed in strict mode" ∈
      (validate_query_safety q dialect true).2 := by
    rw [validate_query_safety_snd_sql q dialect true hqne hne hm]
    apply List.mem_append_left
    unfold validate_sql_query
    apply List.mem_append_left
    apply List.mem_append_left
    simp only [if_true, hsel, hwith, Bool.not_false, Bool.and_self]
    exact List.mem_singleton_self _
  exact ⟨validate_query_safety_fst_false q dialect true _ hmem, hmem⟩

/-- Claim C3 (witness): a concrete non-SELECT query under the PostgreSQL
dialect in strict mode is unsafe with the strict-mode violation reported. -/
theorem claim_C3_witness :
    (validate_query_safety "SHOW TABLES" "PostgreSQL" true).1 = false ∧
      "Only SELECT statements allowed in strict mode" ∈
        (validate_query_safety "SHOW TABLES" "PostgreSQL" true).2 :=
  claim_C3_amended "SHOW TABLES" "PostgreSQL"
    (by decide) (by decide) (by decide) (by decide)

/-- Claim C1 (counterexample): a JSON-shaped query that fails to parse and
contains the denylisted operator name as a literal substring receives only
the invalid-format violation — the per-operator scan sits after `json.loads`
inside the `try` block, so the raised decode error skips it. -/
theorem claim_C1_counterexample :
    containsSubStr exBadMongo "$out" = true ∧
      mongoJsonShaped exBadMongo = true ∧
      jsonAccepts exBadMongo = false ∧
      (validate_query_safety exBadMongo "mongodb" true).2 =
        ["Invalid MongoDB query format"] ∧
      "Unsafe MongoDB operation detected: $out" ∉
        (validate_query_safety exBadMongo "mongodb" true).2 := by
  refine ⟨by decide, by decide, by decide, by decide, by decide⟩

/-- Claim C1 (amended): the per-operator denylist scan of
`_validate_mongodb_query` emits one violation per denylisted name found in
the raw query as a literal substring, but only when the query is not
JSON-shaped or its JSON parse succeeds; a JSON-shaped query whose parse
fails receives only the invalid-format violation (plus the generic
violations), the per-operator scan being skipped by the raised decode
error. -/
theorem claim_C1_amended :
    (∀ (q : String) (strict : Bool),
      mongoJsonShaped q = true → jsonAccepts q = false →
        (validate_query_safety q "mongodb" strict).2 =
          "Invalid MongoDB query format" :: validate_generic_safety q) ∧
    (∀ (q : String) (strict : Bool) (op : String),
      (mongoJsonShaped q = false ∨ jsonAccepts q = true) →
      op ∈ UNSAFE_MONGO_OPERATIONS → containsSubStr q op = true →
        ("Unsafe MongoDB operation detected: " ++ op) ∈
          (validate_query_safety q "mongodb" strict).2) := by
  have hshape_ne : ∀ q : String, mongoJsonShaped q = true →
      (pyStrip q).data.isEmpty = false ∧ q.data.isEmpty = false := by
    intro q hs
    have hstrip : (pyStrip q).data ≠ [] := by
      unfold mongoJsonShaped at hs
      rcases Bool.or_eq_true_iff.mp hs with h | h
      · obtain ⟨r, hr⟩ := isPrefixOf_iff_append.mp h
        rw [hr]
        simp
      · obtain ⟨r, hr⟩ := isPrefixOf_iff_append.mp h
        rw [hr]
        simp
    constructor
    · cases hx : (pyStrip q).data with
      | nil => exact absurd hx hstrip
      | cons _ _ => rfl
    · cases hq : q.data with
      | nil =>
        exfalso
        apply hstrip
        show pyStripL q.data = []
        rw [hq]
        rfl
      | cons _ _ => rfl
  constructor
  · intro q strict hs hjson
    obtain ⟨h2, h1⟩ := hshape_ne q hs
    rw [validate_query_safety_snd_mongo q strict h1 h2]
    unfold validate_mongodb_query
    rw [hs, hjson]
    rfl
  · intro q strict op hok hop hsub
    have hopscan : ("Unsafe MongoDB operation detected: " ++ op) ∈ mongoOperatorScan q := by
      unfold mongoOperatorScan
      exact List.mem_filterMap.mpr ⟨op, hop, by rw [hsub]; rfl⟩
    have hophead := List.all_eq_true.mp unsafe_mongo_operations_head op hop
    have hqchar : ∃ c ∈ q.data, isPyWs c = false := by
      cases hd : op.data with
      | nil => rw [hd] at hophead; exact absurd hophead (by simp)
      | cons c rest =>
        rw [hd] at hophead
        obtain ⟨l, r, heq⟩ := containsSub_iff.mp hsub
        rw [hd] at heq
        refine ⟨c, ?_, ?_⟩
        · rw [heq]; simp
        · simpa using hophead
    obtain ⟨c, hcmem, hcws⟩ := hqchar
    obtain ⟨h2, h1⟩ := strip_isEmpty_false_of_mem hcmem hcws
    rw [validate_query_safety_snd_mongo q strict h1 h2]
    apply List.mem_append_left
    unfold validate_mongodb_query
    rcases hok with hshape | hjson
    · rw [hshape]
      simp only [Bool.false_eq_true, if_false]
      exact List.mem_append_right _ hopscan
    · by_cases hshape : mongoJsonShaped q = true
      · rw [hshape, hjson]
        simpa using hopscan
      · simp only [Bool.not_eq_true] at hshape
        rw [hshape]
        simp only [Bool.false_eq_true, if_false]
        exact List.mem_append_right _ hopscan

/-- Claim C1 (witness): both halves of the amended claim at concrete
queries — a JSON-shaped parse failure keeps only the invalid-format
violation, and a parsed pipeline containing a denylisted stage receives its
named violation. -/
theorem claim_C1_witness :
    (validate_query_safety exBadMongo "mongodb" true).2 =
      "Invalid MongoDB query format" :: validate_generic_safety exBadMongo ∧
    ("Unsafe MongoDB operation detected: " ++ "$merge") ∈
      (validate_query_safety "[\x7b\"$merge\": 1\x7d]" "mongodb" true).2 := by
  constructor
  · exact claim_C1_amended.1 exBadMongo true (by decide) (by decide)
  · exact claim_C1_amended.2 "[\x7b\"$merge\": 1\x7d]" true "$merge" (Or.inr (by decide))
      (by decide) (by decide)

/-- Every successful outcome of the post-schema pipeline tail is an error
pair with an empty query or a query pair with no error. -/
theorem generate_tail_shape (env : GenEnv) (question database_type model : String)
    (strict : Bool) (row_limit : Option Int) (schema_content : Option String)
    (r : String × Option String)
    (h : generate_tail env question database_type model strict row_limit schema_content
      = Except.ok r) : r.1 = "" ∨ r.2 = none := by
  unfold generate_tail at h
  split at h
  · exact absurd h (by simp)
  · split at h
    · split at h
      · simp only [Except.ok.injEq] at h
        exact Or.inl (by rw [← h])
      · simp only [Except.ok.injEq] at h
        exact Or.inr (by rw [← h])
    · simp only [Except.ok.injEq] at h
      exact Or.inr (by rw [← h])

/-- Every successful outcome of the orchestrator body is an error pair with
an empty query or a query pair with no error. -/
theorem generate_query_body_shape (env : GenEnv) (question database_type : String)
    (model : Option String) (schema_text schema_id : Option String)
    (strict : Bool) (row_limit : Option Int) (r : String × Option String)
    (h : generate_query_body env question database_type model schema_text schema_id
      strict row_limit = Except.ok r) : r.1 = "" ∨ r.2 = none := by
  unfold generate_query_body at h
  by_cases hv : (!(validate_prompt_inputs (sanitize_input question) database_type).1) = true
  · rw [if_pos hv] at h
    simp only [Except.ok.injEq] at h
    exact Or.inl (by rw [← h])
  · rw [if_neg hv] at h
    simp only [] at h
    iterate 12 all_goals try split at h
    all_goals
      first
        | exact generate_tail_shape _ _ _ _ _ _ _ _ h
        | (simp only [Except.ok.injEq] at h
           exact Or.inl (by rw [← h]))

/-- Claim C6: `generate_query` always produces exactly one externally
observable outcome — an error pair carries the empty query and a produced
query carries no error, never both — and any exception a pipeline stage
raises (modelled by the provider call's `Except.error`) is caught at the
outermost boundary and reported as the generic generation error rather than
propagating. -/
theorem claim_C6_single_outcome_catchall :
    (∀ (env : GenEnv) (q dt : String) (model st sid : Option String)
        (strict : Bool) (rl : Option Int),
      ¬((generate_query env q dt model st sid strict rl).1 ≠ "" ∧
        (generate_query env q dt model st sid strict rl).2 ≠ none)) ∧
    (∀ (env : GenEnv) (q dt : String) (model st sid : Option String)
        (strict : Bool) (rl : Option Int) (e : String),
      generate_query_body env q dt model st sid strict rl = Except.error e →
      generate_query env q dt model st sid strict rl =
        ("", some ("Generation error: " ++ e))) := by
  constructor
  · intro env q dt model st sid strict rl
    rintro ⟨h1, h2⟩
    unfold generate_query at h1 h2
    cases hbody : generate_query_body env q dt model st sid strict rl with
    | ok r =>
      rw [hbody] at h1 h2
      rcases generate_query_body_shape env q dt model st sid strict rl r hbody with h | h
      · exact h1 h
      · exact h2 h
    | error e =>
      rw [hbody] at h1
      exact h1 rfl
  · intro env q dt model st sid strict rl e h
    unfold generate_query
    rw [h]

/-- Claim C6 (witness): a provider exception on a concrete request is
reported as the generic generation error. -/
theorem claim_C6_witness :
    generate_query envBoom "list users" "MySQL" none none none false none =
      ("", some ("Generation error: " ++ "boom")) :=
  claim_C6_single_outcome_catchall.2 envBoom "list users" "MySQL" none none none
    false none "boom" (by rfl)

/-- Claim C7: a dialect label outside the supported set (case-sensitive
membership) is rejected before any provider work: the outcome is the same
for any two collaborator records (so the provider is never invoked, nor
even consulted for configuration), the outcome is an error with no query,
the error is the unsupported-dialect message whenever the question's input
shape validates, and otherwise it is the input-shape error — showing
input-shape validation of the (sanitized) question runs before the
dialect-membership check and before any provider call. -/
theorem claim_C7_unsupported_dialect_rejected (env env2 : GenEnv) (q dt : String)
    (model st sid : Option String) (strict : Bool) (rl : Option Int)
    (hdt : dt ∉ SUPPORTED_DATABASES) :
    generate_query env q dt model st sid strict rl =
      generate_query env2 q dt model st sid strict rl ∧
    (generate_query env q dt model st sid strict rl).1 = "" ∧
    (generate_query env q dt model st sid strict rl).2 ≠ none ∧
    ((validate_prompt_inputs (sanitize_input q) dt).1 = true →
      (generate_query env q dt model st sid strict rl).2 =
        some ("Unsupported database type: " ++ dt ++ ". Supported: " ++
          String.intercalate ", " SUPPORTED_DATABASES)) ∧
    ((validate_prompt_inputs (sanitize_input q) dt).1 = false →
      (generate_query env q dt model st sid strict rl).2 =
        some (validate_prompt_inputs (sanitize_input q) dt).2) := by
  have hc : SUPPORTED_DATABASES.contains dt = false := by simpa using hdt
  have hgen : ∀ e : GenEnv, generate_query e q dt model st sid strict rl =
      if (validate_prompt_inputs (sanitize_input q) dt).1 then
        ("", some ("Unsupported database type: " ++ dt ++ ". Supported: " ++
          String.intercalate ", " SUPPORTED_DATABASES))
      else ("", some (validate_prompt_inputs (sanitize_input q) dt).2) := by
    intro e
    unfold generate_query generate_query_body
    cases hval : (validate_prompt_inputs (sanitize_input q) dt).1 with
    | false => simp [hval]
    | true => simp [hval, hc, hdt]
  refine ⟨by rw [hgen env, hgen env2], ?_, ?_, ?_, ?_⟩
  · rw [hgen env]
    cases hval : (validate_prompt_inputs (sanitize_input q) dt).1 <;> simp [hval]
  · rw [hgen env]
    cases hval : (validate_prompt_inputs (sanitize_input q) dt).1 <;> simp [hval]
  · intro hval
    rw [hgen env]
    simp [hval]
  · intro hval
    rw [hgen env]
    simp [hval]

/-- Claim C7 (witness): the unsupported dialect "Redis" on a shape-valid
question yields the unsupported-dialect error identically under two
collaborator records that differ in provider configuration, completion
behaviour and schema store. -/
theorem claim_C7_witness :
    generate_query envOk "list users" "Redis" none none none true none =
      generate_query envAlt "list users" "Redis" none none none true none ∧
    (generate_query envOk "list users" "Redis" none none none true none).1 = "" ∧
    (generate_query envOk "list users" "Redis" none none none true none).2 ≠ none ∧
    ((validate_prompt_inputs (sanitize_input "list users") "Redis").1 = true →
      (generate_query envOk "list users" "Redis" none none none true none).2 =
        some ("Unsupported database type: " ++ "Redis" ++ ". Supported: " ++
          String.intercalate ", " SUPPORTED_DATABASES)) ∧
    ((validate_prompt_inputs (sanitize_input "list users") "Redis").1 = false →
      (generate_query envOk "list users" "Redis" none none none true none).2 =
        some (validate_prompt_inputs (sanitize_input "list users") "Redis").2) :=
  claim_C7_unsupported_dialect_rejected envOk envAlt "list users" "Redis"
    none none none true none (by decide)

/-- Head character of an appended string with non-empty first part. -/
theorem strAppend_head (p s : String) (c : Char) (hp : p.data.head? = some c) :
    (p ++ s).data.head? = some c := by
  rw [strData_append]
  cases hd : p.data with
  | nil => rw [hd] at hp; exact absurd hp (by simp)
  | cons x xs =>
    rw [hd] at hp
    simp only [List.head?_cons] at hp
    simp [hp]

/-- The input-shape validator only ever returns one of its five fixed
reasons. -/
theorem validate_prompt_inputs_snd_mem (q dt : String) :
    (validate_prompt_inputs q dt).2 ∈
      ["", "Question cannot be empty", "Question is too long (max 1000 characters)",
       "Database type must be specified", "Question contains potentially unsafe content"] := by
  unfold validate_prompt_inputs
  split_ifs <;> simp

/-- A successful pipeline-tail outcome never carries a row-limit error
message: its only error message is prefixed by the unsafe-operations
label. -/
theorem generate_tail_snd_ne_row (env : GenEnv)
    (question database_type model : String) (strict : Bool)
    (row_limit : Option Int) (schema_content : Option String)
    (r : String × Option String)
    (h : generate_tail env question database_type model strict row_limit schema_content
      = Except.ok r) :
    r.2 ≠ some "Row limit must be at least 1" ∧
      r.2 ≠ some ("Row limit cannot exceed " ++ toString ROW_LIMIT_MAX) := by
  unfold generate_tail at h
  split at h
  · exact absurd h (by simp)
  · split at h
    · split at h
      · simp only [Except.ok.injEq] at h
        rw [← h]
        constructor
        · simp only [ne_eq, Option.some.injEq]
          exact strAppend_ne_of_head _ _ _ 'Q' (by decide) (by decide)
        · simp only [ne_eq, Option.some.injEq]
          refine strAppend_ne_of_head _ _ _ 'Q' (by decide) ?_
          rw [strAppend_head "Row limit cannot exceed " _ 'R' (by decide)]
          decide
      · simp only [Except.ok.injEq] at h
        rw [← h]
        constructor <;> simp
    · simp only [Except.ok.injEq] at h
      rw [← h]
      constructor <;> simp

/-- A message starting with a character other than R differs from both
row-limit error messages. -/
theorem strAppend_ne_rowmsgs (p s : String) (c : Char)
    (hp : p.data.head? = some c) (hc : c ≠ 'R') :
    p ++ s ≠ "Row limit must be at least 1" ∧
      p ++ s ≠ ("Row limit cannot exceed " ++ toString ROW_LIMIT_MAX) := by
  constructor
  · refine strAppend_ne_of_head _ _ _ c hp ?_
    rw [show ("Row limit must be at least 1" : String).data.head? = some 'R' from by decide]
    simp [Ne.symm hc]
  · refine strAppend_ne_of_head _ _ _ c hp ?_
    rw [strAppend_head "Row limit cannot exceed " _ 'R' (by decide)]
    simp [Ne.symm hc]

/-- A successful orchestrator-body outcome at the maximal row limit never
carries a row-limit error message. -/
theorem generate_query_body_snd_ne_row (env : GenEnv) (q dt : String)
    (model st sid : Option String) (strict : Bool) (r : String × Option String)
    (h : generate_query_body env q dt model st sid strict (some ROW_LIMIT_MAX)
      = Except.ok r) :
    r.2 ≠ some "Row limit must be at least 1" ∧
      r.2 ≠ some ("Row limit cannot exceed " ++ toString ROW_LIMIT_MAX) := by
  unfold generate_query_body at h
  by_cases hv : (!(validate_prompt_inputs (sanitize_input q) dt).1) = true
  · rw [if_pos hv] at h
    simp only [Except.ok.injEq] at h
    rw [← h]
    have hm := validate_prompt_inputs_snd_mem (sanitize_input q) dt
    simp only [List.mem_cons, List.not_mem_nil, or_false] at hm
    rcases hm with hx | hx | hx | hx | hx <;> rw [hx] <;> exact ⟨by decide, by decide⟩
  · rw [if_neg hv] at h
    simp only [] at h
    norm_num [row_limit_error_of, ROW_LIMIT_MAX] at h
    iterate 12 all_goals try split at h
    all_goals
      first
        | exact generate_tail_snd_ne_row _ _ _ _ _ _ _ _ h
        | (simp only [Except.ok.injEq] at h
           rw [← h]
           exact ⟨by decide, by decide⟩)
        | (simp only [Except.ok.injEq] at h
           rw [← h]
           simp only [ne_eq, Option.some.injEq]
           exact strAppend_ne_rowmsgs _ _ 'U'
             (strAppend_head _ _ 'U' (strAppend_head _ _ 'U' (by decide))) (by decide))
        | (simp only [Except.ok.injEq] at h
           rw [← h]
           simp only [ne_eq, Option.some.injEq]
           exact strAppend_ne_rowmsgs _ _ 'S' (strAppend_head _ _ 'S' (by decide)) (by decide))

/-- Claim C8: a supplied row limit of 0 and of ROW_LIMIT_MAX + 1 are both
rejected with the corresponding row-limit error once the earlier checks
pass, while a supplied row limit of exactly ROW_LIMIT_MAX is accepted:
whatever the collaborators do, the outcome never carries a row-limit error
message. -/
theorem claim_C8_row_limit_bounds :
    (∀ (env : GenEnv) (q dt : String) (model st sid : Option String) (strict : Bool),
      (validate_prompt_inputs (sanitize_input q) dt).1 = true →
      dt ∈ SUPPORTED_DATABASES →
      env.providerConfigured = true →
      generate_query env q dt model st sid strict (some 0) =
        ("", some "Row limit must be at least 1") ∧
      generate_query env q dt model st sid strict (some (ROW_LIMIT_MAX + 1)) =
        ("", some ("Row limit cannot exceed " ++ toString ROW_LIMIT_MAX))) ∧
    (∀ (env : GenEnv) (q dt : String) (model st sid : Option String) (strict : Bool),
      (generate_query env q dt model st sid strict (some ROW_LIMIT_MAX)).2 ≠
        some "Row limit must be at least 1" ∧
      (generate_query env q dt model st sid strict (some ROW_LIMIT_MAX)).2 ≠
        some ("Row limit cannot exceed " ++ toString ROW_LIMIT_MAX)) := by
  constructor
  · intro env q dt model st sid strict hval hmem hconf
    constructor
    · unfold generate_query generate_query_body
      simp [hval, hmem, hconf, row_limit_error_of]
    · unfold generate_query generate_query_body
      simp [hval, hmem, hconf, row_limit_error_of, ROW_LIMIT_MAX]
  · intro env q dt model st sid strict
    unfold generate_query
    cases hbody : generate_query_body env q dt model st sid strict (some ROW_LIMIT_MAX) with
    | error e =>
      constructor <;>
        (simp only [ne_eq, Option.some.injEq]
         intro habs) <;>
        [exact (strAppend_ne_rowmsgs "Generation error: " e 'G' (by decide) (by decide)).1 habs;
         exact (strAppend_ne_rowmsgs "Generation error: " e 'G' (by decide) (by decide)).2 habs]
    | ok r =>
      exact generate_query_body_snd_ne_row env q dt model st sid strict r hbody

/-- Claim C8 (witness): the three row-limit behaviours on a concrete
request: 0 rejected, ROW_LIMIT_MAX + 1 rejected, ROW_LIMIT_MAX accepted
past the row-limit check. -/
theorem claim_C8_witness :
    (generate_query envOk "list users" "MySQL" none none none true (some 0) =
      ("", some "Row limit must be at least 1") ∧
     generate_query envOk "list users" "MySQL" none none none true
        (some (ROW_LIMIT_MAX + 1)) =
      ("", some ("Row limit cannot exceed " ++ toString ROW_LIMIT_MAX))) ∧
    ((generate_query envOk "list users" "MySQL" none none none true
        (some ROW_LIMIT_MAX)).2 ≠ some "Row limit must be at least 1" ∧
     (generate_query envOk "list users" "MySQL" none none none true
        (some ROW_LIMIT_MAX)).2 ≠
          some ("Row limit cannot exceed " ++ toString ROW_LIMIT_MAX)) :=
  ⟨claim_C8_row_limit_bounds.1 envOk "list users" "MySQL" none none none true
      (by decide) (by decide) (by decide),
   claim_C8_row_limit_bounds.2 envOk "list users" "MySQL" none none none true⟩

/-- A string extending a non-prefix differs from the target. -/
theorem strAppend_ne_of_not_prefix (p s t : String)
    (h : p.data.isPrefixOf t.data = false) : p ++ s ≠ t := by
  intro he
  have hpre : p.data.isPrefixOf t.data = true := by
    rw [← he, strData_append]
    exact isPrefixOf_iff_append.mpr ⟨s.data, rfl⟩
  rw [h] at hpre
  exact Bool.noConfusion hpre

/-- String append is associative (via the underlying character lists). -/
theorem strAppend_assoc (a b c : String) : (a ++ b) ++ c = a ++ (b ++ c) := by
  rw [← strMk_data ((a ++ b) ++ c), ← strMk_data (a ++ (b ++ c))]
  simp only [strData_append, List.append_assoc]

/-- `sanitize_input` output is stripped. -/
theorem sanitize_input_stripped (q : String) :
    pyStripL (sanitize_input q).data = (sanitize_input q).data := by
  unfold sanitize_input
  by_cases hq : q.data.isEmpty
  · simp only [hq, if_true]
    rfl
  · simp only [hq, Bool.false_eq_true, if_false]
    exact pyStripL_idem _

/-- Under the 1000-character bound on its question, the input-shape
validator never reports the too-long reason. -/
theorem validate_prompt_inputs_snd_ne_toolong (q2 dt : String)
    (hle : ¬ 1000 < q2.data.length) :
    (validate_prompt_inputs q2 dt).2 ≠ "Question is too long (max 1000 characters)" := by
  unfold validate_prompt_inputs
  split_ifs <;> decide

/-- A successful pipeline-tail outcome never carries the too-long
message. -/
theorem generate_tail_snd_ne_toolong (env : GenEnv)
    (question database_type model : String) (strict : Bool)
    (row_limit : Option Int) (schema_content : Option String)
    (r : String × Option String)
    (h : generate_tail env question database_type model strict row_limit schema_content
      = Except.ok r) :
    r.2 ≠ some "Question is too long (max 1000 characters)" := by
  unfold generate_tail at h
  split at h
  · exact absurd h (by simp)
  · split at h
    · split at h
      · simp only [Except.ok.injEq] at h
        rw [← h]
        simp only [ne_eq, Option.some.injEq]
        exact strAppend_ne_of_not_prefix _ _ _ (by decide)
      · simp only [Except.ok.injEq] at h
        rw [← h]
        simp
    · simp only [Except.ok.injEq] at h
      rw [← h]
      simp

/-- A reported row-limit error is one of the two fixed messages. -/
theorem row_limit_error_of_msgs (rl : Option Int) (m : String)
    (h : row_limit_error_of rl = some m) :
    m = "Row limit must be at least 1" ∨
      m = "Row limit cannot exceed " ++ toString ROW_LIMIT_MAX := by
  cases rl with
  | none => exact absurd h (by simp [row_limit_error_of])
  | some rlv =>
    simp only [row_limit_error_of] at h
    split_ifs at h <;> simp only [Option.some.injEq] at h
    · exact Or.inl h.symm
    · exact Or.inr h.symm

/-- A successful orchestrator-body outcome whose sanitized question is
within the 1000-character bound never carries the too-long message. -/
theorem generate_query_body_snd_ne_toolong (env : GenEnv) (q dt : String)
    (model st sid : Option String) (strict : Bool) (rl : Option Int)
    (hle : ¬ 1000 < (sanitize_input q).data.length) (r : String × Option String)
    (h : generate_query_body env q dt model st sid strict rl = Except.ok r) :
    r.2 ≠ some "Question is too long (max 1000 characters)" := by
  unfold generate_query_body at h
  by_cases hv : (!(validate_prompt_inputs (sanitize_input q) dt).1) = true
  · rw [if_pos hv] at h
    simp only [Except.ok.injEq] at h
    rw [← h]
    simp only [ne_eq, Option.some.injEq]
    exact validate_prompt_inputs_snd_ne_toolong _ _ hle
  · rw [if_neg hv] at h
    simp only [] at h
    iterate 12 all_goals try split at h
    all_goals
      first
        | exact generate_tail_snd_ne_toolong _ _ _ _ _ _ _ _ h
        | (simp only [Except.ok.injEq] at h
           rw [← h]
           exact by decide)
        | (simp only [Except.ok.injEq] at h
           rw [← h]
           simp only [ne_eq, Option.some.injEq]
           rw [strAppend_assoc, strAppend_assoc]
           exact strAppend_ne_of_not_prefix _ _ _ (by decide))
        | (simp only [Except.ok.injEq] at h
           rw [← h]
           simp only [ne_eq, Option.some.injEq]
           rw [strAppend_assoc]
           exact strAppend_ne_of_not_prefix _ _ _ (by decide))
        | (rename_i sc heq
           simp only [Except.ok.injEq] at h
           rw [← h]
           simp only [ne_eq, Option.some.injEq]
           rcases row_limit_error_of_msgs _ _ heq with hx | hx <;> rw [hx]
           · decide
           · exact strAppend_ne_of_not_prefix _ _ _ (by decide))

/-- Claim C10: the 1000-character question-length limit is enforced on the
sanitized question: whenever sanitization brings a raw question longer than
1000 characters down to at most 1000 characters the too-long error can no
longer arise, and whenever the sanitized question still exceeds 1000
characters the request fails with exactly the too-long error regardless of
dialect, collaborators or the other arguments. -/
theorem claim_C10_length_limit_on_sanitized :
    (∀ (env : GenEnv) (q dt : String) (model st sid : Option String)
        (strict : Bool) (rl : Option Int),
      1000 < q.data.length → (sanitize_input q).data.length ≤ 1000 →
      (generate_query env q dt model st sid strict rl).2 ≠
        some "Question is too long (max 1000 characters)") ∧
    (∀ (env : GenEnv) (q dt : String) (model st sid : Option String)
        (strict : Bool) (rl : Option Int),
      1000 < (sanitize_input q).data.length →
      generate_query env q dt model st sid strict rl =
        ("", some "Question is too long (max 1000 characters)")) := by
  constructor
  · intro env q dt model st sid strict rl _ hle2
    have hle : ¬ 1000 < (sanitize_input q).data.length := Nat.not_lt.mpr hle2
    unfold generate_query
    cases hbody : generate_query_body env q dt model st sid strict rl with
    | error e =>
      simp only [ne_eq, Option.some.injEq]
      intro habs
      exact strAppend_ne_of_not_prefix "Generation error: " e _ (by decide) habs
    | ok r =>
      exact generate_query_body_snd_ne_toolong env q dt model st sid strict rl hle r hbody
  · intro env q dt model st sid strict rl hlong
    have h1 : (sanitize_input q).data.isEmpty = false := by
      cases hd : (sanitize_input q).data with
      | nil => rw [hd] at hlong; exact absurd hlong (by simp)
      | cons _ _ => rfl
    have h2 : (pyStrip (sanitize_input q)).data.isEmpty = false := by
      show (pyStripL (sanitize_input q).data).isEmpty = false
      rw [sanitize_input_stripped]
      exact h1
    have hlong2 : 1000 < (sanitize_input q).length := hlong
    have hvp : validate_prompt_inputs (sanitize_input q) dt =
        (false, "Question is too long (max 1000 characters)") := by
      unfold validate_prompt_inputs
      simp [h1, h2, hlong, hlong2]
    unfold generate_query generate_query_body
    simp [hvp]

set_option maxRecDepth 10000 in
/-- Claim C10 (witness): a 1001-character raw question that sanitizes to
500 characters is not rejected as too long, while a question whose
sanitized form keeps 1500 characters is rejected with exactly the too-long
error. -/
theorem claim_C10_witness :
    ((generate_query envOk qPadded "MySQL" none none none true none).2 ≠
      some "Question is too long (max 1000 characters)") ∧
    (generate_query envOk qOverlong "MySQL" none none none true none =
      ("", some "Question is too long (max 1000 characters)")) :=
  ⟨claim_C10_length_limit_on_sanitized.1 envOk qPadded "MySQL" none none none
      true none (by decide) (by decide),
   claim_C10_length_limit_on_sanitized.2 envOk qOverlong "MySQL" none none none
      true none (by decide)⟩
